import Mathlib

/-!
Verification development for the AI-Arena turn resolution engine
(`ai_arena/game_engine/physics.py` and `ai_arena/game_engine/data_models.py`).

The engine is embedded shallowly: Python floats are modelled as exact
rationals, and the numpy routines the engine calls (`np.cos`, `np.sin`,
`np.arctan2`, `np.sqrt`, `np.pi`) are supplied as a `MathModel` parameter
bundle.  Claims whose truth depends on analytic identities of those
routines take the identities as explicit hypotheses.
-/

namespace AiArena

/-- Python's `%` operator on floats: `a - b * floor (a / b)`
(the result has the sign of the divisor, matching `% (2 * np.pi)` use). -/
def pymod (a b : ℚ) : ℚ := a - b * ⌊a / b⌋

/-- Python's `int()` conversion: truncation toward zero. -/
def pytrunc (q : ℚ) : Int := if q < 0 then -⌊-q⌋ else ⌊q⌋

/-- Fuel-driven integer square root: largest `k` with `k * k ≤ n` once the
fuel is at least `n`.  (Structural recursion, so concrete values reduce.) -/
def isqrtAux (n : ℕ) : ℕ → ℕ → ℕ
  | 0, k => k
  | fuel + 1, k => if (k + 1) * (k + 1) ≤ n then isqrtAux n fuel (k + 1) else k

/-- Integer square root (exact on perfect squares). -/
def isqrt (n : ℕ) : ℕ := isqrtAux n n 0

/-- ASCII lowercase (`str.lower()` on the ASCII strings used here). -/
def lowerChar (c : Char) : Char :=
  if 'A' ≤ c ∧ c ≤ 'Z' then Char.ofNat (c.toNat + 32) else c

/-- ASCII uppercase (`str.upper()` on the ASCII strings used here). -/
def upperChar (c : Char) : Char :=
  if 'a' ≤ c ∧ c ≤ 'z' then Char.ofNat (c.toNat - 32) else c

def pyLower (s : String) : String := String.mk (s.data.map lowerChar)

def pyUpper (s : String) : String := String.mk (s.data.map upperChar)

/-- Split at the first occurrence of `sep`, as Python's `split(sep, 1)`:
`none` when `sep` does not occur, otherwise the prefix and the whole
remainder. -/
def splitOnce (sep : Char) : List Char → Option (List Char × List Char)
  | [] => none
  | c :: cs =>
    if c = sep then some ([], cs)
    else (splitOnce sep cs).map (fun p => (c :: p.1, p.2))

/-- One decimal digit value. -/
def digitVal (c : Char) : Option ℕ :=
  if c.isDigit then some (c.toNat - 48) else none

/-- Value of a digit string, `none` when any character is not a digit
(an empty list yields `some 0`; emptiness is checked by the caller). -/
def decDigits (cs : List Char) : Option ℕ :=
  cs.foldl
    (fun acc c =>
      match acc, digitVal c with
      | some n, some d => some (10 * n + d)
      | _, _ => none)
    (some 0)

/-- Model of Python `float(str)` restricted to the plain decimal literals this
codebase passes around (optional sign, digits, optional single fraction part).
Exponent forms, `inf`/`nan` and surrounding whitespace are treated as
unparseable; the engine only ever receives plain decimals here. -/
def parseDecQ (s : String) : Option ℚ :=
  let signed : ℚ × List Char :=
    match s.data with
    | '-' :: r => (-1, r)
    | '+' :: r => (1, r)
    | r => (1, r)
  match splitOnce '.' signed.2 with
  | none =>
      if signed.2.length = 0 then none
      else (decDigits signed.2).map (fun n => signed.1 * n)
  | some (ip, fp) =>
      if fp.contains '.' then none
      else if ip.length = 0 ∧ fp.length = 0 then none
      else
        match decDigits ip, decDigits fp with
        | some n, some f =>
            some (signed.1 * ((n : ℚ) + (f : ℚ) / (10 ^ fp.length)))
        | _, _ => none

/-- Exact-rational stand-in for `np.sqrt`: exact on perfect squares of
naturals over perfect-square denominators (every concrete distance evaluated
in this file), an integer under-approximation elsewhere, and `0` on negative
input (where numpy returns nan). -/
def ratSqrt (q : ℚ) : ℚ :=
  if q < 0 then 0 else (isqrt q.num.toNat : ℚ) / (isqrt q.den : ℚ)

/-- The numeric routines the engine imports from numpy, supplied as data.
`pi` is the model's value of `np.pi`. -/
structure MathModel where
  pi : ℚ
  cos : ℚ → ℚ
  sin : ℚ → ℚ
  atan2 : ℚ → ℚ → ℚ
  sqrt : ℚ → ℚ

/-- `np.radians`: degrees to radians, `deg * pi / 180`. -/
def radiansQ (M : MathModel) (deg : ℚ) : ℚ := deg * M.pi / 180

/-- `Vec2D` from `data_models.py`. -/
structure Vec2D where
  x : ℚ
  y : ℚ
deriving DecidableEq

def Vec2D.add (a b : Vec2D) : Vec2D := ⟨a.x + b.x, a.y + b.y⟩

def Vec2D.sub (a b : Vec2D) : Vec2D := ⟨a.x - b.x, a.y - b.y⟩

def Vec2D.scale (a : Vec2D) (k : ℚ) : Vec2D := ⟨a.x * k, a.y * k⟩

/-- Squared euclidean norm (the argument `Vec2D.magnitude` passes to sqrt). -/
def Vec2D.mag_sq (v : Vec2D) : ℚ := v.x ^ 2 + v.y ^ 2

/-- `Vec2D.magnitude`: `np.sqrt(x**2 + y**2)`. -/
def Vec2D.magnitude (M : MathModel) (v : Vec2D) : ℚ := M.sqrt v.mag_sq

/-- `Vec2D.distance_to`. -/
def Vec2D.distance_to (M : MathModel) (a b : Vec2D) : ℚ :=
  (a.sub b).magnitude M

/-- Legacy movement commands still used for torpedo steering. -/
inductive MovementType where
  | STRAIGHT | SOFT_LEFT | SOFT_RIGHT | HARD_LEFT | HARD_RIGHT
  | REVERSE | REVERSE_LEFT | REVERSE_RIGHT | STOP
deriving DecidableEq

/-- `MovementType[name]` lookup by enum member name (used with `.upper()`),
`none` models the `KeyError` branch. -/
def movementTypeOfName (s : String) : Option MovementType :=
  if s = "STRAIGHT" then some .STRAIGHT
  else if s = "SOFT_LEFT" then some .SOFT_LEFT
  else if s = "SOFT_RIGHT" then some .SOFT_RIGHT
  else if s = "HARD_LEFT" then some .HARD_LEFT
  else if s = "HARD_RIGHT" then some .HARD_RIGHT
  else if s = "REVERSE" then some .REVERSE
  else if s = "REVERSE_LEFT" then some .REVERSE_LEFT
  else if s = "REVERSE_RIGHT" then some .REVERSE_RIGHT
  else if s = "STOP" then some .STOP
  else none

/-- The 9 ship movement directions. -/
inductive MovementDirection where
  | FORWARD | FORWARD_LEFT | FORWARD_RIGHT | LEFT | RIGHT
  | BACKWARD | BACKWARD_LEFT | BACKWARD_RIGHT | STOP
deriving DecidableEq

/-- The 5 ship rotation commands. -/
inductive RotationCommand where
  | NONE | SOFT_LEFT | SOFT_RIGHT | HARD_LEFT | HARD_RIGHT
deriving DecidableEq

/-- Phaser configuration enum (`PhaserConfig` in `data_models.py`). -/
inductive PhaserConfig where
  | WIDE | FOCUSED
deriving DecidableEq

/-- Blast zone lifecycle phases. -/
inductive BlastZonePhase where
  | EXPANSION | PERSISTENCE | DISSIPATION
deriving DecidableEq

structure ShipState where
  position : Vec2D
  velocity : Vec2D
  heading : ℚ
  shields : ℚ
  ae : ℚ
  phaser_config : PhaserConfig
  reconfiguring_phaser : Bool
  phaser_cooldown_remaining : ℚ
deriving DecidableEq

structure TorpedoState where
  id : String
  position : Vec2D
  velocity : Vec2D
  heading : ℚ
  ae_remaining : ℚ
  owner : String
  just_launched : Bool
  detonation_timer : Option ℚ
deriving DecidableEq

structure BlastZone where
  id : String
  position : Vec2D
  base_damage : ℚ
  phase : BlastZonePhase
  age : ℚ
  current_radius : ℚ
  owner : String
deriving DecidableEq

structure GameState where
  turn : Int
  ship_a : ShipState
  ship_b : ShipState
  torpedoes : List TorpedoState
  blast_zones : List BlastZone
deriving DecidableEq

/-- Values an `Event.data` dictionary can hold. -/
inductive EValue where
  | s (v : String)
  | q (v : ℚ)
  | i (v : Int)
  | vlist (v : List ℚ)
deriving DecidableEq

structure Event where
  type : String
  turn : Int
  data : List (String × EValue)
deriving DecidableEq

/-- One side's orders.  `torpedo_orders` is a Python dict used solely through
`.get(torpedo.id)`, so it is modelled as the lookup function itself. -/
structure Orders where
  movement : MovementDirection
  rotation : RotationCommand
  weapon_action : String
  torpedo_orders : String → Option String

/-! Configuration.  Field names follow the attributes `physics.py` actually
reads from the loaded `GameConfig`. -/

structure SimulationConfig where
  decision_interval_seconds : ℚ
  physics_tick_rate_seconds : ℚ
deriving DecidableEq

structure ShipConfig where
  max_ae : ℚ
  ae_regen_per_second : ℚ
  base_speed_units_per_second : ℚ
deriving DecidableEq

structure MovementConfig where
  forward_ae_per_second : ℚ
  diagonal_ae_per_second : ℚ
  perpendicular_ae_per_second : ℚ
  backward_ae_per_second : ℚ
  backward_diagonal_ae_per_second : ℚ
  stop_ae_per_second : ℚ
deriving DecidableEq

structure RotationConfig where
  none_ae_per_second : ℚ
  soft_turn_ae_per_second : ℚ
  soft_turn_degrees_per_second : ℚ
  hard_turn_ae_per_second : ℚ
  hard_turn_degrees_per_second : ℚ
deriving DecidableEq

structure PhaserModeConfig where
  arc_degrees : ℚ
  range_units : ℚ
  damage : ℚ
  cooldown_seconds : ℚ
deriving DecidableEq

/-- The `wide`/`focused` pair (`PhaserConfig` dataclass in the loader; renamed
here because the enum above keeps that name). -/
structure PhaserParams where
  wide : PhaserModeConfig
  focused : PhaserModeConfig
deriving DecidableEq

structure TorpedoConfig where
  launch_cost_ae : ℚ
  max_ae_capacity : ℚ
  speed_units_per_second : ℚ
  max_active_per_ship : ℕ
  ae_burn_straight_per_second : ℚ
  blast_expansion_seconds : ℚ
  blast_persistence_seconds : ℚ
  blast_dissipation_seconds : ℚ
  blast_radius_units : ℚ
  blast_damage_multiplier : ℚ
deriving DecidableEq

structure GameConfig where
  simulation : SimulationConfig
  ship : ShipConfig
  movement : MovementConfig
  rotation : RotationConfig
  phaser : PhaserParams
  torpedo : TorpedoConfig
deriving DecidableEq

/-- The engine: configuration plus the numeric model for the numpy calls. -/
structure PhysicsEngine where
  config : GameConfig
  M : MathModel

def PhysicsEngine.fixed_timestep (E : PhysicsEngine) : ℚ :=
  E.config.simulation.physics_tick_rate_seconds

def PhysicsEngine.action_phase_duration (E : PhysicsEngine) : ℚ :=
  E.config.simulation.decision_interval_seconds

/-- `int(action_phase_duration / fixed_timestep)`. -/
def PhysicsEngine.substeps (E : PhysicsEngine) : ℕ :=
  (pytrunc (E.action_phase_duration / E.fixed_timestep)).toNat

def PhysicsEngine.ship_speed (E : PhysicsEngine) : ℚ :=
  E.config.ship.base_speed_units_per_second

def PhysicsEngine.torpedo_speed (E : PhysicsEngine) : ℚ :=
  E.config.torpedo.speed_units_per_second

/-- `MOVEMENT_DIRECTION_OFFSETS` (radians, relative to heading). -/
def movementDirectionOffset (M : MathModel) : MovementDirection → ℚ
  | .FORWARD => 0
  | .FORWARD_LEFT => M.pi / 4
  | .FORWARD_RIGHT => -(M.pi / 4)
  | .LEFT => M.pi / 2
  | .RIGHT => -(M.pi / 2)
  | .BACKWARD => M.pi
  | .BACKWARD_LEFT => 3 * M.pi / 4
  | .BACKWARD_RIGHT => -(3 * M.pi / 4)
  | .STOP => 0

/-- `ROTATION_RATES` (degrees per second, signed; left positive). -/
def rotationRate (E : PhysicsEngine) : RotationCommand → ℚ
  | .NONE => 0
  | .SOFT_LEFT => E.config.rotation.soft_turn_degrees_per_second
  | .SOFT_RIGHT => -E.config.rotation.soft_turn_degrees_per_second
  | .HARD_LEFT => E.config.rotation.hard_turn_degrees_per_second
  | .HARD_RIGHT => -E.config.rotation.hard_turn_degrees_per_second

/-- `movement_params[...]["rotation"]` — per-turn torpedo rotation angles. -/
def movementParamsRotation (M : MathModel) : MovementType → ℚ
  | .STRAIGHT => 0
  | .SOFT_LEFT => radiansQ M 15
  | .SOFT_RIGHT => -radiansQ M 15
  | .HARD_LEFT => radiansQ M 45
  | .HARD_RIGHT => -radiansQ M 45
  | .REVERSE => radiansQ M 180
  | .REVERSE_LEFT => radiansQ M 30
  | .REVERSE_RIGHT => -radiansQ M 30
  | .STOP => 0

/-- `_get_movement_ae_rate` (AE per second). -/
def get_movement_ae_rate (E : PhysicsEngine) : MovementDirection → ℚ
  | .FORWARD => E.config.movement.forward_ae_per_second
  | .FORWARD_LEFT => E.config.movement.diagonal_ae_per_second
  | .FORWARD_RIGHT => E.config.movement.diagonal_ae_per_second
  | .LEFT => E.config.movement.perpendicular_ae_per_second
  | .RIGHT => E.config.movement.perpendicular_ae_per_second
  | .BACKWARD => E.config.movement.backward_ae_per_second
  | .BACKWARD_LEFT => E.config.movement.backward_diagonal_ae_per_second
  | .BACKWARD_RIGHT => E.config.movement.backward_diagonal_ae_per_second
  | .STOP => E.config.movement.stop_ae_per_second

/-- `_get_rotation_ae_rate` (AE per second). -/
def get_rotation_ae_rate (E : PhysicsEngine) : RotationCommand → ℚ
  | .NONE => E.config.rotation.none_ae_per_second
  | .SOFT_LEFT => E.config.rotation.soft_turn_ae_per_second
  | .SOFT_RIGHT => E.config.rotation.soft_turn_ae_per_second
  | .HARD_LEFT => E.config.rotation.hard_turn_ae_per_second
  | .HARD_RIGHT => E.config.rotation.hard_turn_ae_per_second

/-- `_validate_orders`: combined movement+rotation cost over the whole turn
against current AE; on shortfall both are downgraded to STOP/NONE. -/
def validate_orders (E : PhysicsEngine) (ship : ShipState) (orders : Orders) :
    Orders :=
  let movement_cost := get_movement_ae_rate E orders.movement * E.action_phase_duration
  let rotation_cost := get_rotation_ae_rate E orders.rotation * E.action_phase_duration
  if movement_cost + rotation_cost > ship.ae then
    { orders with movement := .STOP, rotation := .NONE }
  else orders

/-- The two sides; `key` is the `"ship_a"`/`"ship_b"` identifier string. -/
inductive Side where
  | a | b
deriving DecidableEq

def Side.key : Side → String
  | .a => "ship_a"
  | .b => "ship_b"

def GameState.getShip (s : GameState) : Side → ShipState
  | .a => s.ship_a
  | .b => s.ship_b

def GameState.setShip (s : GameState) : Side → ShipState → GameState
  | .a, sh => { s with ship_a := sh }
  | .b, sh => { s with ship_b := sh }

/-- `_apply_weapon_action`: discrete per-turn weapon step (torpedo launch or
phaser reconfiguration). -/
def apply_weapon_action (E : PhysicsEngine) (s : GameState) (side : Side)
    (weapon_action : String) : GameState × List Event :=
  let ship := s.getShip side
  let ship_id := side.key
  if weapon_action = "LAUNCH_TORPEDO" then
    let launch_cost := E.config.torpedo.launch_cost_ae
    let max_torpedoes := E.config.torpedo.max_active_per_ship
    if launch_cost ≤ ship.ae ∧
        (s.torpedoes.filter (fun t => t.owner = ship_id)).length < max_torpedoes then
      let new_torpedo : TorpedoState :=
        { id := ship_id ++ "_torpedo_" ++ toString s.turn
          position := ship.position
          velocity := ⟨E.M.cos ship.heading * E.torpedo_speed,
                       E.M.sin ship.heading * E.torpedo_speed⟩
          heading := ship.heading
          ae_remaining := E.config.torpedo.max_ae_capacity
          owner := ship_id
          just_launched := true
          detonation_timer := none }
      let s1 := s.setShip side { ship with ae := ship.ae - launch_cost }
      ({ s1 with torpedoes := s1.torpedoes ++ [new_torpedo] },
       [⟨"torpedo_launched", s.turn,
         [("ship", .s ship_id), ("torpedo_id", .s new_torpedo.id)]⟩])
    else (s, [])
  else if weapon_action = "CONFIGURE_FOCUSED" then
    if ship.phaser_config ≠ .FOCUSED then
      (s.setShip side
        { ship with reconfiguring_phaser := true, phaser_config := .FOCUSED },
       [⟨"phaser_reconfigured", s.turn,
         [("ship", .s ship_id), ("config", .s "FOCUSED")]⟩])
    else (s, [])
  else if weapon_action = "CONFIGURE_WIDE" then
    if ship.phaser_config ≠ .WIDE then
      (s.setShip side
        { ship with reconfiguring_phaser := true, phaser_config := .WIDE },
       [⟨"phaser_reconfigured", s.turn,
         [("ship", .s ship_id), ("config", .s "WIDE")]⟩])
    else (s, [])
  else (s, [])

/-- `_parse_torpedo_action`: split once on the first `":"`; a
`detonate_after` head requires a parseable delay within `[0, 15]`
(`Except.error` models the raised `ValueError`); anything else is returned
unchanged as a movement command with no delay. -/
def parse_torpedo_action (action_str : String) :
    Except String (String × Option ℚ) :=
  match splitOnce ':' action_str.data with
  | none => .ok (action_str, none)
  | some (p0, p1) =>
    if pyLower (String.mk p0) = "detonate_after" then
      match parseDecQ (String.mk p1) with
      | none => .error ("Invalid detonation delay format: " ++ action_str)
      | some delay =>
        if delay < 0 ∨ delay > 15 then
          .error "Detonation delay outside valid range [0.0, 15.0]"
        else .ok ("detonate_after", some delay)
    else .ok (action_str, none)

/-- Helper: did the parse raise (`ValueError` branch)? -/
def isErr {ε α : Type} : Except ε α → Bool
  | .error _ => true
  | .ok _ => false

/-- `_apply_torpedo_orders`: start-of-turn pass that records detonation
timers.  Python truthiness makes a missing or empty command string a no-op,
and a raised parse error is caught and logged, leaving the torpedo
unchanged. -/
def apply_torpedo_orders (s : GameState) (orders_a orders_b : Orders) :
    GameState :=
  { s with
    torpedoes := s.torpedoes.map (fun t =>
      let orders := if t.owner = "ship_a" then orders_a else orders_b
      match orders.torpedo_orders t.id with
      | none => t
      | some action_str =>
        if action_str.length = 0 then t
        else
          match parse_torpedo_action action_str with
          | .ok (action_type, delay) =>
              if action_type = "detonate_after" then
                { t with detonation_timer := delay }
              else t
          | .error _ => t) }

/-- `_apply_ae_regeneration`: continuous AE regeneration, capped at max. -/
def apply_ae_regeneration (E : PhysicsEngine) (ship : ShipState) (dt : ℚ) :
    ShipState :=
  { ship with ae := min (ship.ae + E.config.ship.ae_regen_per_second * dt)
                        E.config.ship.max_ae }

/-- `_update_ship_physics`: one substep of the independent rotation/movement
system, AE costs and regeneration, and cooldown decay. -/
def update_ship_physics (E : PhysicsEngine) (ship : ShipState)
    (orders : Orders) (dt : ℚ) : ShipState :=
  let rotation_per_dt_rad := radiansQ E.M (rotationRate E orders.rotation * dt)
  let heading1 := pymod (ship.heading + rotation_per_dt_rad) (2 * E.M.pi)
  let velocity1 : Vec2D :=
    if orders.movement = .STOP then ⟨0, 0⟩
    else
      let movement_offset := movementDirectionOffset E.M orders.movement
      let velocity_angle := heading1 + movement_offset
      ⟨E.M.cos velocity_angle * E.ship_speed,
       E.M.sin velocity_angle * E.ship_speed⟩
  let position1 := ship.position.add (velocity1.scale dt)
  let ae1 := ship.ae - get_movement_ae_rate E orders.movement * dt
  let ae2 := ae1 - get_rotation_ae_rate E orders.rotation * dt
  let ship1 := apply_ae_regeneration E
    { ship with heading := heading1, velocity := velocity1,
                position := position1, ae := ae2 } dt
  let ship2 := { ship1 with ae := max 0 ship1.ae }
  if ship2.phaser_cooldown_remaining > 0 then
    { ship2 with
      phaser_cooldown_remaining := max 0 (ship2.phaser_cooldown_remaining - dt) }
  else ship2

/-- `_update_torpedo_physics`: optional gradual turn (suppressed the launch
turn and for detonation commands; an unknown movement name falls back to
STRAIGHT, a raised parse error is caught), then velocity from heading,
position advance, and straight-line fuel burn. -/
def update_torpedo_physics (E : PhysicsEngine) (t : TorpedoState)
    (action_str : Option String) (dt : ℚ) : TorpedoState :=
  let movement : Option MovementType :=
    match action_str with
    | none => none
    | some s =>
      if s.length ≠ 0 ∧ t.just_launched = false then
        match parse_torpedo_action s with
        | .ok (action_type, _) =>
            if action_type = "detonate_after" then none
            else
              match movementTypeOfName (pyUpper action_type) with
              | some m => some m
              | none => some .STRAIGHT
        | .error _ => none
      else none
  let t1 :=
    match movement with
    | some m =>
      if t.just_launched = false then
        let rotation_per_dt :=
          movementParamsRotation E.M m * dt / E.action_phase_duration
        { t with heading := pymod (t.heading + rotation_per_dt) (2 * E.M.pi) }
      else t
    | none => t
  let velocity1 : Vec2D :=
    ⟨E.M.cos t1.heading * E.torpedo_speed, E.M.sin t1.heading * E.torpedo_speed⟩
  { t1 with
    velocity := velocity1
    position := t1.position.add (velocity1.scale dt)
    ae_remaining :=
      t1.ae_remaining - E.config.torpedo.ae_burn_straight_per_second * dt }

/-- One zone's lifecycle advance for `_update_blast_zones`; the Bool is true
when the zone was marked for removal (fully dissipated). -/
def update_blast_zone (E : PhysicsEngine) (dt : ℚ) (zone : BlastZone) :
    BlastZone × Bool :=
  let z0 := { zone with age := zone.age + dt }
  match z0.phase with
  | .EXPANSION =>
    let expansion_duration := E.config.torpedo.blast_expansion_seconds
    let max_radius := E.config.torpedo.blast_radius_units
    let growth_rate := max_radius / expansion_duration
    let z1 := { z0 with
      current_radius := min (z0.current_radius + growth_rate * dt) max_radius }
    if z1.age ≥ expansion_duration then
      ({ z1 with phase := .PERSISTENCE, current_radius := max_radius }, false)
    else (z1, false)
  | .PERSISTENCE =>
    let persistence_start := E.config.torpedo.blast_expansion_seconds
    let persistence_end :=
      persistence_start + E.config.torpedo.blast_persistence_seconds
    if z0.age ≥ persistence_end then
      ({ z0 with phase := .DISSIPATION }, false)
    else (z0, false)
  | .DISSIPATION =>
    let dissipation_duration := E.config.torpedo.blast_dissipation_seconds
    let max_radius := E.config.torpedo.blast_radius_units
    let shrink_rate := max_radius / dissipation_duration
    let z1 := { z0 with
      current_radius := max 0 (z0.current_radius - shrink_rate * dt) }
    (z1, decide (z1.current_radius ≤ 0))

/-- `_update_blast_zones`: advance every zone and drop the fully dissipated
ones.  (Removal in the source goes through a `zones_to_remove` list and
`list.remove`, which removes by dataclass value equality; since the removal
mark is a function of the updated value, that is the same as filtering on
the mark.)  Note the source updates only the zones themselves — no damage
is applied to any ship here, and no events are produced. -/
def update_blast_zones (E : PhysicsEngine) (blast_zones : List BlastZone)
    (dt : ℚ) : List BlastZone :=
  (((blast_zones.map (update_blast_zone E dt)).filter
      (fun p => p.2 = false)).map Prod.fst)

/-- First pass of `_handle_torpedo_detonations`: a pending timer is
decremented by `dt`. -/
def decrement_timer (dt : ℚ) (t : TorpedoState) : TorpedoState :=
  match t.detonation_timer with
  | some timer => { t with detonation_timer := some (timer - dt) }
  | none => t

/-- Detonation test applied to the decremented torpedo: a pending timer that
has reached `≤ 0`, or — only when no timer is pending (`elif`) — depleted
fuel. -/
def will_detonate (t : TorpedoState) : Bool :=
  match t.detonation_timer with
  | some timer => timer ≤ 0
  | none => t.ae_remaining ≤ 0

/-- Blast zone created by a detonating torpedo. -/
def mk_blast_zone (E : PhysicsEngine) (t : TorpedoState) : BlastZone :=
  { id := t.id ++ "_blast"
    position := ⟨t.position.x, t.position.y⟩
    base_damage := t.ae_remaining * E.config.torpedo.blast_damage_multiplier
    phase := .EXPANSION
    age := 0
    current_radius := 0
    owner := t.owner }

/-- `torpedo_detonated` event (the timer, already decremented, is still set
for a timed detonation, hence the tag). -/
def detonation_event (turn : Int) (t : TorpedoState) : Event :=
  ⟨"torpedo_detonated", turn,
    [("torpedo_id", .s t.id),
     ("owner", .s t.owner),
     ("position", .vlist [t.position.x, t.position.y]),
     ("ae_remaining", .q t.ae_remaining),
     ("blast_zone_id", .s (t.id ++ "_blast")),
     ("detonation_type", .s (if t.detonation_timer.isSome then "timed" else "auto"))]⟩

/-- `_handle_torpedo_detonations`: decrement timers, collect detonating
torpedoes, then (in list order) append a blast zone and event per detonation
and remove the torpedo.  Removal by `list.remove` value equality coincides
with filtering on `will_detonate`, which is a function of the decremented
value. -/
def handle_torpedo_detonations (E : PhysicsEngine) (s : GameState)
    (events : List Event) (dt : ℚ) : GameState × List Event :=
  let torps := s.torpedoes.map (decrement_timer dt)
  let to_det := torps.filter (fun t => will_detonate t)
  ({ s with
     torpedoes := torps.filter (fun t => will_detonate t = false)
     blast_zones := s.blast_zones ++ to_det.map (mk_blast_zone E) },
   events ++ to_det.map (detonation_event s.turn))

/-- `_check_single_phaser_hit`: cooldown gate, then range, then signed
bearing within half arc; a hit subtracts mode damage from the target's
shields and puts the attacker on cooldown.  Returns (attacker, target,
optional event). -/
def check_single_phaser_hit (E : PhysicsEngine)
    (attacker target : ShipState) (attacker_id target_id : String)
    (turn : Int) : ShipState × ShipState × Option Event :=
  if attacker.phaser_cooldown_remaining > 0 then (attacker, target, none)
  else
    let distance := attacker.position.distance_to E.M target.position
    let p :=
      match attacker.phaser_config with
      | .WIDE => E.config.phaser.wide
      | .FOCUSED => E.config.phaser.focused
    let arc := radiansQ E.M p.arc_degrees
    if distance > p.range_units then (attacker, target, none)
    else
      let delta := target.position.sub attacker.position
      let angle_to_target := E.M.atan2 delta.y delta.x
      let d0 := pymod (angle_to_target - attacker.heading) (2 * E.M.pi)
      let angle_diff := if d0 > E.M.pi then d0 - 2 * E.M.pi else d0
      if |angle_diff| ≤ arc / 2 then
        ({ attacker with phaser_cooldown_remaining := p.cooldown_seconds },
         { target with shields := target.shields - p.damage },
         some ⟨"phaser_hit", turn,
           [("attacker", .s attacker_id),
            ("target", .s target_id),
            ("damage", .q p.damage),
            ("config", .s (match attacker.phaser_config with
                           | .WIDE => "WIDE"
                           | .FOCUSED => "FOCUSED")),
            ("distance", .q distance)]⟩)
      else (attacker, target, none)

/-- `_check_phaser_hits`: ship A evaluated first against the pre-turn-end
state, then ship B against the already-updated pair (the source mutates the
ships in place between the two checks). -/
def check_phaser_hits (E : PhysicsEngine) (s : GameState) :
    GameState × List Event :=
  let r1 :=
    if s.ship_a.reconfiguring_phaser = false then
      check_single_phaser_hit E s.ship_a s.ship_b "ship_a" "ship_b" s.turn
    else (s.ship_a, s.ship_b, none)
  let a1 := r1.1
  let b1 := r1.2.1
  let r2 :=
    if b1.reconfiguring_phaser = false then
      check_single_phaser_hit E b1 a1 "ship_b" "ship_a" s.turn
    else (b1, a1, none)
  ({ s with ship_a := r2.2.1, ship_b := r2.1 },
   r1.2.2.toList ++ r2.2.2.toList)

/-- `torpedo_hit` event. -/
def torpedo_hit_event (turn : Int) (t : TorpedoState) (target_id : String)
    (damage : Int) : Event :=
  ⟨"torpedo_hit", turn,
    [("torpedo_id", .s t.id), ("target", .s target_id), ("damage", .i damage)]⟩

/-- Loop body of `_check_torpedo_collisions`: fuel-depleted torpedoes are
marked for silent removal; otherwise the torpedo is tested against ship A
then ship B (skipping its owner), and the first ship within the blast radius
takes `int(fuel x multiplier)` damage, after which the torpedo is marked
for removal and the scan stops. -/
def collide_step (E : PhysicsEngine) (turn : Int)
    (acc : ShipState × ShipState × List Event × List TorpedoState)
    (t : TorpedoState) : ShipState × ShipState × List Event × List TorpedoState :=
  let sa := acc.1
  let sb := acc.2.1
  let evs := acc.2.2.1
  let rem := acc.2.2.2
  if t.ae_remaining ≤ 0 then (sa, sb, evs, rem ++ [t])
  else if t.owner ≠ "ship_a" ∧
      t.position.distance_to E.M sa.position < E.config.torpedo.blast_radius_units then
    let damage := pytrunc (t.ae_remaining * E.config.torpedo.blast_damage_multiplier)
    ({ sa with shields := sa.shields - (damage : ℚ) }, sb,
     evs ++ [torpedo_hit_event turn t "ship_a" damage], rem ++ [t])
  else if t.owner ≠ "ship_b" ∧
      t.position.distance_to E.M sb.position < E.config.torpedo.blast_radius_units then
    let damage := pytrunc (t.ae_remaining * E.config.torpedo.blast_damage_multiplier)
    (sa, { sb with shields := sb.shields - (damage : ℚ) },
     evs ++ [torpedo_hit_event turn t "ship_b" damage], rem ++ [t])
  else (sa, sb, evs, rem)

/-- `_check_torpedo_collisions`: fold the loop body over the torpedoes, then
drop every torpedo listed for removal (`t not in torpedoes_to_remove`). -/
def check_torpedo_collisions (E : PhysicsEngine) (s : GameState) :
    GameState × List Event :=
  let r := s.torpedoes.foldl (collide_step E s.turn)
    (s.ship_a, s.ship_b, ([] : List Event), ([] : List TorpedoState))
  ({ s with ship_a := r.1, ship_b := r.2.1
            torpedoes := s.torpedoes.filter (fun t => ¬ t ∈ r.2.2.2) },
   r.2.2.1)

/-- `_copy_state` at the value level.  (The source rebuilds each dataclass
from its `__dict__`, a one-level copy; at the value level that reproduces
the same snapshot.  The reference-level behaviour is modelled separately
below by `copy_state_obj`.) -/
def copy_state (state : GameState) : GameState :=
  { turn := state.turn
    ship_a := state.ship_a
    ship_b := state.ship_b
    torpedoes := state.torpedoes
    blast_zones := state.blast_zones }

/-- Command string routed to a torpedo during the substep loop
(`valid_orders_a.torpedo_orders.get(...)` when owned by ship A, else the
B-side orders). -/
def torpedo_cmd (valid_orders_a valid_orders_b : Orders) (t : TorpedoState) :
    Option String :=
  if t.owner = "ship_a" then valid_orders_a.torpedo_orders t.id
  else valid_orders_b.torpedo_orders t.id

/-- One fixed substep of the action phase: both ships, every torpedo, the
blast-zone lifecycles, then detonations (which may append events). -/
def substep (E : PhysicsEngine) (valid_orders_a valid_orders_b : Orders)
    (p : GameState × List Event) : GameState × List Event :=
  let s := p.1
  let sa := update_ship_physics E s.ship_a valid_orders_a E.fixed_timestep
  let sb := update_ship_physics E s.ship_b valid_orders_b E.fixed_timestep
  let torps := s.torpedoes.map (fun t =>
    update_torpedo_physics E t (torpedo_cmd valid_orders_a valid_orders_b t)
      E.fixed_timestep)
  let zones := update_blast_zones E s.blast_zones E.fixed_timestep
  handle_torpedo_detonations E
    { s with ship_a := sa, ship_b := sb, torpedoes := torps, blast_zones := zones }
    p.2 E.fixed_timestep

/-- The fixed-timestep loop (`for substep in range(self.substeps)`). -/
def run_substeps (E : PhysicsEngine) (valid_orders_a valid_orders_b : Orders) :
    ℕ → GameState × List Event → GameState × List Event
  | 0, p => p
  | n + 1, p => run_substeps E valid_orders_a valid_orders_b n
      (substep E valid_orders_a valid_orders_b p)

/-- Everything `resolve_turn` does after order validation (steps 2–5 of the
source): weapon actions, torpedo orders, the substep loop, phaser hits,
torpedo collisions, and the clearing of per-turn flags. -/
def resolve_with_valid (E : PhysicsEngine) (new_state : GameState)
    (valid_orders_a valid_orders_b : Orders) : GameState × List Event :=
  let r1 := apply_weapon_action E new_state Side.a valid_orders_a.weapon_action
  let r2 := apply_weapon_action E r1.1 Side.b valid_orders_b.weapon_action
  let events := r1.2 ++ r2.2
  let s3 := apply_torpedo_orders r2.1 valid_orders_a valid_orders_b
  let r4 := run_substeps E valid_orders_a valid_orders_b E.substeps (s3, events)
  let r5 := check_phaser_hits E r4.1
  let r6 := check_torpedo_collisions E r5.1
  let s7 := { r6.1 with
    torpedoes := r6.1.torpedoes.map (fun t => { t with just_launched := false })
    ship_a := { r6.1.ship_a with reconfiguring_phaser := false }
    ship_b := { r6.1.ship_b with reconfiguring_phaser := false } }
  (s7, r4.2 ++ r5.2 ++ r6.2)

/-- `resolve_turn`: copy the snapshot, advance the turn counter, validate
both sides' orders against current AE, and run the rest of the pipeline. -/
def resolve_turn (E : PhysicsEngine) (state : GameState)
    (orders_a orders_b : Orders) : GameState × List Event :=
  let new_state := { copy_state state with turn := state.turn + 1 }
  resolve_with_valid E new_state
    (validate_orders E new_state.ship_a orders_a)
    (validate_orders E new_state.ship_b orders_b)

/-! Reference-level model of `_copy_state`.  The source rebuilds each
dataclass as `ShipState(**ship.__dict__)` etc.: the field dictionary is
copied, so every `Vec2D`-valued field keeps the caller's object reference.
Here `position`/`velocity` fields carry heap addresses (`ℕ`) of the shared,
mutable `Vec2D` dataclass instances. -/

structure ShipObj where
  position : ℕ
  velocity : ℕ
  heading : ℚ
  shields : ℚ
  ae : ℚ
  phaser_config : PhaserConfig
  reconfiguring_phaser : Bool
  phaser_cooldown_remaining : ℚ
deriving DecidableEq

structure TorpedoObj where
  id : String
  position : ℕ
  velocity : ℕ
  heading : ℚ
  ae_remaining : ℚ
  owner : String
  just_launched : Bool
  detonation_timer : Option ℚ
deriving DecidableEq

structure BlastZoneObj where
  id : String
  position : ℕ
  base_damage : ℚ
  phase : BlastZonePhase
  age : ℚ
  current_radius : ℚ
  owner : String
deriving DecidableEq

structure GameStateObj where
  turn : Int
  ship_a : ShipObj
  ship_b : ShipObj
  torpedoes : List TorpedoObj
  blast_zones : List BlastZoneObj
deriving DecidableEq

/-- `ShipState(**ship.__dict__)`: a fresh dataclass whose fields — including
the Vec2D references — are taken unchanged from the original's dict. -/
def copy_ship_obj (sh : ShipObj) : ShipObj :=
  { position := sh.position, velocity := sh.velocity, heading := sh.heading
    shields := sh.shields, ae := sh.ae, phaser_config := sh.phaser_config
    reconfiguring_phaser := sh.reconfiguring_phaser
    phaser_cooldown_remaining := sh.phaser_cooldown_remaining }

/-- `TorpedoState(**t.__dict__)`. -/
def copy_torpedo_obj (t : TorpedoObj) : TorpedoObj :=
  { id := t.id, position := t.position, velocity := t.velocity
    heading := t.heading, ae_remaining := t.ae_remaining, owner := t.owner
    just_launched := t.just_launched, detonation_timer := t.detonation_timer }

/-- `BlastZone(**bz.__dict__)`. -/
def copy_zone_obj (z : BlastZoneObj) : BlastZoneObj :=
  { id := z.id, position := z.position, base_damage := z.base_damage
    phase := z.phase, age := z.age, current_radius := z.current_radius
    owner := z.owner }

/-- `_copy_state` at the reference level: fresh `ShipState`/`TorpedoState`/
`BlastZone` records and fresh lists, but no new `Vec2D` is ever allocated. -/
def copy_state_obj (s : GameStateObj) : GameStateObj :=
  { turn := s.turn
    ship_a := copy_ship_obj s.ship_a
    ship_b := copy_ship_obj s.ship_b
    torpedoes := s.torpedoes.map copy_torpedo_obj
    blast_zones := s.blast_zones.map copy_zone_obj }

/-! Concrete instances used for counterexamples and witnesses. -/

/-- Numeric model used for concrete runs: exact where the runs below
evaluate it (`cos 0 = 1`, `sin 0 = 0`, `arctan2 0 0 = 0`, square roots of
perfect squares, `pi` a rational approximation). -/
def M0 : MathModel :=
  { pi := 314159 / 100000
    cos := fun q => if q = 0 then 1 else 0
    sin := fun _ => 0
    atan2 := fun _ _ => 0
    sqrt := ratSqrt }

/-- Degenerate numeric model satisfying `cos θ ^ 2 + sin θ ^ 2 = 1`
everywhere, for witnesses of Pythagorean-hypothesis theorems. -/
def Mtriv : MathModel :=
  { pi := 3
    cos := fun _ => 1
    sin := fun _ => 0
    atan2 := fun _ _ => 0
    sqrt := ratSqrt }

/-- Small but fully populated configuration: one substep per turn (1 s tick,
1 s turn), blast parameters matching the shipped `config.json` shape. -/
def cfg0 : GameConfig :=
  { simulation := { decision_interval_seconds := 1, physics_tick_rate_seconds := 1 }
    ship := { max_ae := 100, ae_regen_per_second := 1, base_speed_units_per_second := 3 }
    movement :=
      { forward_ae_per_second := 1, diagonal_ae_per_second := 1
        perpendicular_ae_per_second := 1, backward_ae_per_second := 1
        backward_diagonal_ae_per_second := 1, stop_ae_per_second := 0 }
    rotation :=
      { none_ae_per_second := 0, soft_turn_ae_per_second := 1
        soft_turn_degrees_per_second := 1, hard_turn_ae_per_second := 2
        hard_turn_degrees_per_second := 3 }
    phaser :=
      { wide := { arc_degrees := 90, range_units := 50, damage := 10, cooldown_seconds := 5 }
        focused := { arc_degrees := 10, range_units := 120, damage := 25, cooldown_seconds := 8 } }
    torpedo :=
      { launch_cost_ae := 25, max_ae_capacity := 100, speed_units_per_second := 15
        max_active_per_ship := 3, ae_burn_straight_per_second := 1
        blast_expansion_seconds := 5, blast_persistence_seconds := 60
        blast_dissipation_seconds := 5, blast_radius_units := 15
        blast_damage_multiplier := 3/2 } }

def E0 : PhysicsEngine := { config := cfg0, M := M0 }

def E1 : PhysicsEngine := { config := cfg0, M := Mtriv }

/-- A stationary ship with the given position, heading, shields and AE. -/
def mkShip (pos : Vec2D) (heading shields ae : ℚ) : ShipState :=
  { position := pos, velocity := ⟨0, 0⟩, heading := heading
    shields := shields, ae := ae, phaser_config := .WIDE
    reconfiguring_phaser := false, phaser_cooldown_remaining := 0 }

/-- Hold-position orders with no weapon or torpedo commands. -/
def oSTOP : Orders :=
  { movement := .STOP, rotation := .NONE
    weapon_action := "MAINTAIN_CONFIG", torpedo_orders := fun _ => none }

/-- Ship A sits at the centre of a persisting full-radius zone for the whole
turn, ship B far away (the scenario of
`test_blast_damage.test_ship_takes_damage_inside_blast_zone`). -/
def s_blast : GameState :=
  { turn := 1
    ship_a := mkShip ⟨50, 0⟩ 0 100 100
    ship_b := mkShip ⟨200, 0⟩ 0 100 100
    torpedoes := []
    blast_zones :=
      [{ id := "test_blast_1", position := ⟨50, 0⟩, base_damage := 45
         phase := .PERSISTENCE, age := 5, current_radius := 15
         owner := "ship_b" }] }

/-- Iterated per-substep ship update: within the substep loop nothing but
`update_ship_physics` ever writes to the two ships. -/
def ship_iter (E : PhysicsEngine) (o : Orders) : ℕ → ShipState → ShipState
  | 0, sh => sh
  | n + 1, sh => ship_iter E o n (update_ship_physics E sh o E.fixed_timestep)

/-- Damage a directly colliding torpedo inflicts: `int(fuel x multiplier)`. -/
def collision_damage (E : PhysicsEngine) (t : TorpedoState) : Int :=
  pytrunc (t.ae_remaining * E.config.torpedo.blast_damage_multiplier)

/-- A torpedo with fuel left whose distance to ship A's position is strictly
below the blast radius, not owned by ship A (ship A is tested first). -/
def t_hits_a (E : PhysicsEngine) (pA : Vec2D) (t : TorpedoState) : Prop :=
  0 < t.ae_remaining ∧ t.owner ≠ "ship_a" ∧
    t.position.distance_to E.M pA < E.config.torpedo.blast_radius_units

/-- Same for ship B, which is only tested when ship A was not hit. -/
def t_hits_b (E : PhysicsEngine) (pA pB : Vec2D) (t : TorpedoState) : Prop :=
  0 < t.ae_remaining ∧
    ¬ (t.owner ≠ "ship_a" ∧
        t.position.distance_to E.M pA < E.config.torpedo.blast_radius_units) ∧
    t.owner ≠ "ship_b" ∧
    t.position.distance_to E.M pB < E.config.torpedo.blast_radius_units

instance (E : PhysicsEngine) (pA : Vec2D) (t : TorpedoState) :
    Decidable (t_hits_a E pA t) := by unfold t_hits_a; infer_instance

instance (E : PhysicsEngine) (pA pB : Vec2D) (t : TorpedoState) :
    Decidable (t_hits_b E pA pB t) := by unfold t_hits_b; infer_instance

/-- Total collision damage ship A receives from a torpedo list. -/
def dmg_a (E : PhysicsEngine) (pA : Vec2D) (ts : List TorpedoState) : ℚ :=
  ((ts.filter (fun t => decide (t_hits_a E pA t))).map
    (fun t => ((collision_damage E t : ℚ)))).sum

/-- Total collision damage ship B receives from a torpedo list. -/
def dmg_b (E : PhysicsEngine) (pA pB : Vec2D) (ts : List TorpedoState) : ℚ :=
  ((ts.filter (fun t => decide (t_hits_b E pA pB t))).map
    (fun t => ((collision_damage E t : ℚ)))).sum

/-- The `torpedo_hit` events emitted by the collision pass, in list order. -/
def coll_events (E : PhysicsEngine) (turn : Int) (pA pB : Vec2D)
    (ts : List TorpedoState) : List Event :=
  ts.filterMap (fun t =>
    if t_hits_a E pA t then
      some (torpedo_hit_event turn t "ship_a" (collision_damage E t))
    else if t_hits_b E pA pB t then
      some (torpedo_hit_event turn t "ship_b" (collision_damage E t))
    else none)

/-- A torpedo the collision pass removes: spent fuel or a direct hit. -/
def coll_removed (E : PhysicsEngine) (pA pB : Vec2D) (t : TorpedoState) : Prop :=
  t.ae_remaining ≤ 0 ∨ t_hits_a E pA t ∨ t_hits_b E pA pB t

instance (E : PhysicsEngine) (pA pB : Vec2D) (t : TorpedoState) :
    Decidable (coll_removed E pA pB t) := by unfold coll_removed; infer_instance

def coll_removed_list (E : PhysicsEngine) (pA pB : Vec2D)
    (ts : List TorpedoState) : List TorpedoState :=
  ts.filter (fun t => decide (coll_removed E pA pB t))

/-- Both ships at the same point; ship B with 5 shields (a wide-mode hit
deals 10). -/
def s_neg : GameState :=
  { turn := 1
    ship_a := mkShip ⟨0, 0⟩ 0 100 100
    ship_b := mkShip ⟨0, 0⟩ 0 5 100
    torpedoes := []
    blast_zones := [] }

/-- A fuel-depleted torpedo whose detonation timer is still pending. -/
def t_pending : TorpedoState :=
  { id := "t_timer", position := ⟨0, 0⟩, velocity := ⟨15, 0⟩, heading := 0
    ae_remaining := -1, owner := "ship_a", just_launched := false
    detonation_timer := some 15 }

def s_pending : GameState :=
  { turn := 3
    ship_a := mkShip ⟨0, 0⟩ 0 100 100
    ship_b := mkShip ⟨100, 0⟩ 0 100 100
    torpedoes := [t_pending]
    blast_zones := [] }

/-- Ship A with 1.5 AE: FORWARD+NONE costs 1 (affordable) but
FORWARD+HARD_LEFT costs 3 (downgraded to STOP/NONE). -/
def s_lowae : GameState :=
  { turn := 1
    ship_a := mkShip ⟨0, 0⟩ 0 100 (3/2)
    ship_b := mkShip ⟨200, 0⟩ 0 100 100
    torpedoes := []
    blast_zones := [] }

def oFWD : Orders :=
  { movement := .FORWARD, rotation := .NONE
    weapon_action := "MAINTAIN_CONFIG", torpedo_orders := fun _ => none }

def oFWDHL : Orders :=
  { movement := .FORWARD, rotation := .HARD_LEFT
    weapon_action := "MAINTAIN_CONFIG", torpedo_orders := fun _ => none }

/-- Torpedo owned by ship B sitting 3 units from ship A with 40 fuel. -/
def t_hit : TorpedoState :=
  { id := "t_hit", position := ⟨3, 0⟩, velocity := ⟨15, 0⟩, heading := 0
    ae_remaining := 40, owner := "ship_b", just_launched := false
    detonation_timer := none }

def s_hit : GameState :=
  { turn := 1
    ship_a := mkShip ⟨0, 0⟩ 0 100 100
    ship_b := mkShip ⟨100, 0⟩ 0 100 100
    torpedoes := [t_hit]
    blast_zones := [] }

/-- Concrete reference-level snapshot: Vec2D heap addresses 1–4 for the
ships, 7 for the single blast zone. -/
def gs_obj : GameStateObj :=
  { turn := 1
    ship_a := { position := 1, velocity := 2, heading := 0, shields := 100
                ae := 100, phaser_config := .WIDE
                reconfiguring_phaser := false
                phaser_cooldown_remaining := 0 }
    ship_b := { position := 3, velocity := 4, heading := 0, shields := 100
                ae := 100, phaser_config := .WIDE
                reconfiguring_phaser := false
                phaser_cooldown_remaining := 0 }
    torpedoes := []
    blast_zones := [{ id := "z", position := 7, base_damage := 45
                      phase := .PERSISTENCE, age := 5, current_radius := 15
                      owner := "ship_b" }] }

/-- Two command lookups for one torpedo are interchangeable when they are
equal, or when the first yields a command whose parse raises (the engine
catches the `ValueError` at both use sites) while the second yields no
command at all. -/
def tcmd_equiv (c1 c2 : Option String) : Prop :=
  c1 = c2 ∨ (c2 = none ∧ ∃ m, c1 = some m ∧
    isErr (parse_torpedo_action m) = true)

/-- A torpedo command whose detonation delay (99) is outside `[0, 15]`. -/
def cmd99 : String := "detonate_after:99"

/-- Orders giving the malformed command `cmd99` to torpedo `"t_timer"`. -/
def o99 : Orders :=
  { movement := .STOP, rotation := .NONE
    weapon_action := "MAINTAIN_CONFIG"
    torpedo_orders := fun x => if x = "t_timer" then some cmd99 else none }

theorem handle_det_ship_a (E : PhysicsEngine) (s : GameState) (ev : List Event)
    (dt : ℚ) : (handle_torpedo_detonations E s ev dt).1.ship_a = s.ship_a := rfl

theorem handle_det_ship_b (E : PhysicsEngine) (s : GameState) (ev : List Event)
    (dt : ℚ) : (handle_torpedo_detonations E s ev dt).1.ship_b = s.ship_b := rfl

theorem substep_ship_a (E : PhysicsEngine) (vA vB : Orders)
    (p : GameState × List Event) :
    (substep E vA vB p).1.ship_a =
      update_ship_physics E p.1.ship_a vA E.fixed_timestep := rfl

theorem substep_ship_b (E : PhysicsEngine) (vA vB : Orders)
    (p : GameState × List Event) :
    (substep E vA vB p).1.ship_b =
      update_ship_physics E p.1.ship_b vB E.fixed_timestep := rfl

theorem run_substeps_ship_a (E : PhysicsEngine) (vA vB : Orders) :
    ∀ (n : ℕ) (p : GameState × List Event),
      (run_substeps E vA vB n p).1.ship_a = ship_iter E vA n p.1.ship_a := by
  intro n
  induction n with
  | zero => intro p; rfl
  | succ n ih =>
    intro p
    simp only [run_substeps, ship_iter, ih, substep_ship_a]

theorem run_substeps_ship_b (E : PhysicsEngine) (vA vB : Orders) :
    ∀ (n : ℕ) (p : GameState × List Event),
      (run_substeps E vA vB n p).1.ship_b = ship_iter E vB n p.1.ship_b := by
  intro n
  induction n with
  | zero => intro p; rfl
  | succ n ih =>
    intro p
    simp only [run_substeps, ship_iter, ih, substep_ship_b]

/-- A substep's ship update never touches shields. -/
theorem update_ship_shields (E : PhysicsEngine) (sh : ShipState) (o : Orders)
    (dt : ℚ) : (update_ship_physics E sh o dt).shields = sh.shields := by
  unfold update_ship_physics apply_ae_regeneration
  dsimp only
  split_ifs <;> rfl

theorem ship_iter_shields (E : PhysicsEngine) (o : Orders) :
    ∀ (n : ℕ) (sh : ShipState), (ship_iter E o n sh).shields = sh.shields := by
  intro n
  induction n with
  | zero => intro sh; rfl
  | succ n ih =>
    intro sh
    simp only [ship_iter, ih, update_ship_shields]

/-- A substep's ship update never touches heading except through the
rotation command: equal headings and equal rotation commands give equal
updated headings. -/
theorem update_ship_heading_congr (E : PhysicsEngine) (sh1 sh2 : ShipState)
    (o1 o2 : Orders) (dt : ℚ) (hh : sh1.heading = sh2.heading)
    (hr : o1.rotation = o2.rotation) :
    (update_ship_physics E sh1 o1 dt).heading =
      (update_ship_physics E sh2 o2 dt).heading := by
  unfold update_ship_physics apply_ae_regeneration
  dsimp only
  split_ifs <;> simp [hh, hr]

theorem ship_iter_heading_congr (E : PhysicsEngine) (o1 o2 : Orders)
    (hr : o1.rotation = o2.rotation) :
    ∀ (n : ℕ) (sh1 sh2 : ShipState), sh1.heading = sh2.heading →
      (ship_iter E o1 n sh1).heading = (ship_iter E o2 n sh2).heading := by
  intro n
  induction n with
  | zero => intro sh1 sh2 hh; exact hh
  | succ n ih =>
    intro sh1 sh2 hh
    simp only [ship_iter]
    exact ih _ _ (update_ship_heading_congr E sh1 sh2 o1 o2 _ hh hr)

/-- After any substep the ship's AE is clamped into `[0, max_ae]`. -/
theorem update_ship_ae_bounds (E : PhysicsEngine) (sh : ShipState) (o : Orders)
    (dt : ℚ) (hmax : 0 ≤ E.config.ship.max_ae) :
    0 ≤ (update_ship_physics E sh o dt).ae ∧
      (update_ship_physics E sh o dt).ae ≤ E.config.ship.max_ae := by
  unfold update_ship_physics apply_ae_regeneration
  dsimp only
  split_ifs <;>
    exact ⟨le_max_left 0 _, max_le hmax (min_le_right _ _)⟩

/-- At least one substep suffices: the AE after the loop is in range. -/
theorem ship_iter_ae_bounds (E : PhysicsEngine) (o : Orders)
    (hmax : 0 ≤ E.config.ship.max_ae) :
    ∀ (n : ℕ) (sh : ShipState),
      0 ≤ (ship_iter E o (n + 1) sh).ae ∧
        (ship_iter E o (n + 1) sh).ae ≤ E.config.ship.max_ae := by
  intro n
  induction n with
  | zero => intro sh; exact update_ship_ae_bounds E sh o _ hmax
  | succ n ih =>
    intro sh
    simp only [ship_iter] at ih ⊢
    exact ih _

/-- Each run of ≥ 1 iterations ends with one final `update_ship_physics`. -/
theorem ship_iter_succ_shape (E : PhysicsEngine) (o : Orders) :
    ∀ (n : ℕ) (sh : ShipState), ∃ sh', ship_iter E o (n + 1) sh =
      update_ship_physics E sh' o E.fixed_timestep := by
  intro n
  induction n with
  | zero => intro sh; exact ⟨sh, rfl⟩
  | succ n ih =>
    intro sh
    simp only [ship_iter] at ih ⊢
    exact ih _

/-- The squared speed after a ship update is `0` for STOP and `ship_speed²`
otherwise, given the Pythagorean identity for the numeric model. -/
theorem update_ship_velocity_mag_sq (E : PhysicsEngine) (sh : ShipState)
    (o : Orders) (dt : ℚ)
    (hpy : ∀ θ, E.M.cos θ ^ 2 + E.M.sin θ ^ 2 = 1) :
    ((update_ship_physics E sh o dt).velocity).mag_sq =
      if o.movement = .STOP then 0 else E.ship_speed ^ 2 := by
  unfold update_ship_physics apply_ae_regeneration
  dsimp only
  split_ifs <;> simp only [Vec2D.mag_sq] <;>
    first
      | rw [mul_pow, mul_pow, ← add_mul, hpy, one_mul]
      | norm_num

/-- The validator leaves the weapon action and torpedo commands untouched. -/
theorem validate_preserves_rest (E : PhysicsEngine) (sh : ShipState)
    (o : Orders) :
    (validate_orders E sh o).weapon_action = o.weapon_action ∧
      (validate_orders E sh o).torpedo_orders = o.torpedo_orders := by
  unfold validate_orders
  dsimp only
  split_ifs <;> exact ⟨rfl, rfl⟩

/-- Downgraded orders validate to themselves. -/
theorem validate_stop_none (E : PhysicsEngine) (sh : ShipState) (o : Orders) :
    validate_orders E sh { o with movement := .STOP, rotation := .NONE } =
      { o with movement := .STOP, rotation := .NONE } := by
  unfold validate_orders
  dsimp only
  split_ifs <;> rfl

/-- Full characterization of the collision fold: ships keep every field but
shields, shields drop by the total per-hit `int(fuel x multiplier)` damage,
one `torpedo_hit` event is appended per hit in order, and the removal list
collects spent and hitting torpedoes. -/
theorem collide_foldl_spec (E : PhysicsEngine) (turn : Int) (pA pB : Vec2D) :
    ∀ (ts : List TorpedoState) (sa sb : ShipState) (evs : List Event)
      (rem : List TorpedoState), sa.position = pA → sb.position = pB →
      ts.foldl (collide_step E turn) (sa, sb, evs, rem) =
        ({ sa with shields := sa.shields - dmg_a E pA ts },
         { sb with shields := sb.shields - dmg_b E pA pB ts },
         evs ++ coll_events E turn pA pB ts,
         rem ++ coll_removed_list E pA pB ts) := by
  intro ts
  induction ts with
  | nil =>
    intro sa sb evs rem hA hB
    simp [dmg_a, dmg_b, coll_events, coll_removed_list]
  | cons t ts ih =>
    intro sa sb evs rem hA hB
    rw [List.foldl_cons]
    by_cases h0 : t.ae_remaining ≤ 0
    · have hstep : collide_step E turn (sa, sb, evs, rem) t =
          (sa, sb, evs, rem ++ [t]) := by
        simp [collide_step, h0]
      have hha : ¬ t_hits_a E pA t := fun h => absurd h.1 (not_lt.mpr h0)
      have hhb : ¬ t_hits_b E pA pB t := fun h => absurd h.1 (not_lt.mpr h0)
      rw [hstep, ih sa sb evs (rem ++ [t]) hA hB]
      simp [dmg_a, dmg_b, coll_events, coll_removed_list, coll_removed,
        List.filter_cons, List.filterMap_cons, hha, hhb, h0]
    · have h0' : 0 < t.ae_remaining := not_le.mp h0
      by_cases h1 : t.owner ≠ "ship_a" ∧
          t.position.distance_to E.M pA < E.config.torpedo.blast_radius_units
      · have hstep : collide_step E turn (sa, sb, evs, rem) t =
            ({ sa with shields := sa.shields - ((collision_damage E t : ℚ)) }, sb,
             evs ++ [torpedo_hit_event turn t "ship_a" (collision_damage E t)],
             rem ++ [t]) := by
          simp [collide_step, h0, hA, h1, collision_damage]
        have hha : t_hits_a E pA t := ⟨h0', h1.1, h1.2⟩
        have hhb : ¬ t_hits_b E pA pB t := fun h => h.2.1 h1
        rw [hstep,
          ih { sa with shields := sa.shields - ((collision_damage E t : ℚ)) } sb
            (evs ++ [torpedo_hit_event turn t "ship_a" (collision_damage E t)])
            (rem ++ [t]) hA hB]
        simp [dmg_a, dmg_b, coll_events, coll_removed_list, coll_removed,
          List.filter_cons, List.filterMap_cons, hha, hhb, h0, sub_sub]
      · by_cases h2 : t.owner ≠ "ship_b" ∧
            t.position.distance_to E.M pB < E.config.torpedo.blast_radius_units
        · have hstep : collide_step E turn (sa, sb, evs, rem) t =
              (sa, { sb with shields := sb.shields - ((collision_damage E t : ℚ)) },
               evs ++ [torpedo_hit_event turn t "ship_b" (collision_damage E t)],
               rem ++ [t]) := by
            simp [collide_step, h0, hA, hB, h1, h2, collision_damage]
          have hha : ¬ t_hits_a E pA t := fun h => h1 ⟨h.2.1, h.2.2⟩
          have hhb : t_hits_b E pA pB t := ⟨h0', h1, h2.1, h2.2⟩
          rw [hstep,
            ih sa { sb with shields := sb.shields - ((collision_damage E t : ℚ)) }
              (evs ++ [torpedo_hit_event turn t "ship_b" (collision_damage E t)])
              (rem ++ [t]) hA hB]
          simp [dmg_a, dmg_b, coll_events, coll_removed_list, coll_removed,
            List.filter_cons, List.filterMap_cons, hha, hhb, h0, sub_sub]
        · have hstep : collide_step E turn (sa, sb, evs, rem) t =
              (sa, sb, evs, rem) := by
            simp [collide_step, h0, hA, hB, h1, h2]
          have hha : ¬ t_hits_a E pA t := fun h => h1 ⟨h.2.1, h.2.2⟩
          have hhb : ¬ t_hits_b E pA pB t := fun h => h2 ⟨h.2.2.1, h.2.2.2⟩
          have hrm : ¬ coll_removed E pA pB t := by
            intro h
            rcases h with h | h | h
            · exact h0 h
            · exact hha h
            · exact hhb h
          rw [hstep, ih sa sb evs rem hA hB]
          simp [dmg_a, dmg_b, coll_events, coll_removed_list, coll_removed,
            List.filter_cons, List.filterMap_cons, hha, hhb, h0, hrm]

/-- The collision pass, characterized on the whole state. -/
theorem check_collisions_eq (E : PhysicsEngine) (s : GameState) :
    check_torpedo_collisions E s =
      ({ s with
          ship_a := { s.ship_a with
            shields := s.ship_a.shields - dmg_a E s.ship_a.position s.torpedoes }
          ship_b := { s.ship_b with
            shields := s.ship_b.shields -
              dmg_b E s.ship_a.position s.ship_b.position s.torpedoes }
          torpedoes := s.torpedoes.filter (fun t =>
            ¬ t ∈ coll_removed_list E s.ship_a.position s.ship_b.position
                s.torpedoes) },
       coll_events E s.turn s.ship_a.position s.ship_b.position s.torpedoes) := by
  unfold check_torpedo_collisions
  rw [collide_foldl_spec E s.turn s.ship_a.position s.ship_b.position
    s.torpedoes s.ship_a s.ship_b [] [] rfl rfl]
  simp

/-- One phaser evaluation writes only the attacker's cooldown and the
target's shields. -/
theorem single_hit_shape (E : PhysicsEngine) (a t : ShipState)
    (aid tid : String) (turn : Int) :
    ∃ cd sh,
      (check_single_phaser_hit E a t aid tid turn).1 =
          { a with phaser_cooldown_remaining := cd } ∧
        (check_single_phaser_hit E a t aid tid turn).2.1 =
          { t with shields := sh } := by
  unfold check_single_phaser_hit
  dsimp only
  split_ifs <;> exact ⟨_, _, rfl, rfl⟩

/-- With nonnegative configured damages a phaser evaluation never raises the
target's shields. -/
theorem single_hit_target_shields_le (E : PhysicsEngine) (a t : ShipState)
    (aid tid : String) (turn : Int)
    (hw : 0 ≤ E.config.phaser.wide.damage)
    (hf : 0 ≤ E.config.phaser.focused.damage) :
    (check_single_phaser_hit E a t aid tid turn).2.1.shields ≤ t.shields := by
  have hp : ∀ pc : PhaserConfig,
      0 ≤ (match pc with
           | .WIDE => E.config.phaser.wide
           | .FOCUSED => E.config.phaser.focused).damage := by
    intro pc; cases pc <;> assumption
  unfold check_single_phaser_hit
  dsimp only
  split_ifs <;> first | exact le_refl _ | exact sub_le_self _ (hp _)

/-- Both phaser evaluations only write shields and cooldowns. -/
theorem check_phaser_hits_shape (E : PhysicsEngine) (s : GameState) :
    ∃ cdA shA cdB shB,
      (check_phaser_hits E s).1 =
        { s with
          ship_a := { s.ship_a with shields := shA, phaser_cooldown_remaining := cdA },
          ship_b := { s.ship_b with shields := shB, phaser_cooldown_remaining := cdB } } := by
  obtain ⟨cd1, sh1, h1a, h1b⟩ :=
    single_hit_shape E s.ship_a s.ship_b "ship_a" "ship_b" s.turn
  unfold check_phaser_hits
  dsimp only
  by_cases hA : s.ship_a.reconfiguring_phaser = false
  · rw [if_pos hA]
    rw [h1a, h1b]
    dsimp only
    by_cases hB : s.ship_b.reconfiguring_phaser = false
    · rw [if_pos hB]
      obtain ⟨cd2, sh2, h2a, h2b⟩ :=
        single_hit_shape E { s.ship_b with shields := sh1 }
          { s.ship_a with phaser_cooldown_remaining := cd1 } "ship_b" "ship_a"
          s.turn
      rw [h2a, h2b]
      exact ⟨cd1, sh2, cd2, sh1, rfl⟩
    · rw [if_neg hB]
      exact ⟨cd1, s.ship_a.shields, s.ship_b.phaser_cooldown_remaining, sh1, rfl⟩
  · rw [if_neg hA]
    dsimp only
    by_cases hB : s.ship_b.reconfiguring_phaser = false
    · rw [if_pos hB]
      obtain ⟨cd2, sh2, h2a, h2b⟩ :=
        single_hit_shape E s.ship_b s.ship_a "ship_b" "ship_a" s.turn
      rw [h2a, h2b]
      exact ⟨s.ship_a.phaser_cooldown_remaining, sh2, cd2, s.ship_b.shields, rfl⟩
    · rw [if_neg hB]
      exact ⟨s.ship_a.phaser_cooldown_remaining, s.ship_a.shields,
        s.ship_b.phaser_cooldown_remaining, s.ship_b.shields, rfl⟩

/-- With nonnegative configured damages, the phaser pass never raises
shields. -/
theorem check_phaser_hits_shields_le (E : PhysicsEngine) (s : GameState)
    (hw : 0 ≤ E.config.phaser.wide.damage)
    (hf : 0 ≤ E.config.phaser.focused.damage) :
    (check_phaser_hits E s).1.ship_a.shields ≤ s.ship_a.shields ∧
      (check_phaser_hits E s).1.ship_b.shields ≤ s.ship_b.shields := by
  obtain ⟨cd1, sh1, h1a, h1b⟩ :=
    single_hit_shape E s.ship_a s.ship_b "ship_a" "ship_b" s.turn
  have hle1 := single_hit_target_shields_le E s.ship_a s.ship_b "ship_a"
    "ship_b" s.turn hw hf
  unfold check_phaser_hits
  dsimp only
  by_cases hA : s.ship_a.reconfiguring_phaser = false
  · rw [if_pos hA]
    rw [h1a, h1b]
    rw [h1b] at hle1
    dsimp only
    by_cases hB : s.ship_b.reconfiguring_phaser = false
    · rw [if_pos hB]
      obtain ⟨cd2, sh2, h2a, h2b⟩ :=
        single_hit_shape E { s.ship_b with shields := sh1 }
          { s.ship_a with phaser_cooldown_remaining := cd1 } "ship_b" "ship_a"
          s.turn
      have hle2 := single_hit_target_shields_le E
        { s.ship_b with shields := sh1 }
        { s.ship_a with phaser_cooldown_remaining := cd1 } "ship_b" "ship_a"
        s.turn hw hf
      rw [h2a, h2b]
      rw [h2b] at hle2
      exact ⟨hle2, hle1⟩
    · rw [if_neg hB]
      exact ⟨le_refl _, hle1⟩
  · rw [if_neg hA]
    dsimp only
    by_cases hB : s.ship_b.reconfiguring_phaser = false
    · rw [if_pos hB]
      obtain ⟨cd2, sh2, h2a, h2b⟩ :=
        single_hit_shape E s.ship_b s.ship_a "ship_b" "ship_a" s.turn
      have hle2 := single_hit_target_shields_le E s.ship_b s.ship_a "ship_b"
        "ship_a" s.turn hw hf
      rw [h2a, h2b]
      rw [h2b] at hle2
      exact ⟨hle2, le_refl _⟩
    · rw [if_neg hB]
      exact ⟨le_refl _, le_refl _⟩

/-- `MAINTAIN_CONFIG` (or any unrecognized weapon action) is a no-op. -/
theorem apply_weapon_action_maintain (E : PhysicsEngine) (s : GameState)
    (side : Side) : apply_weapon_action E s side "MAINTAIN_CONFIG" = (s, []) := by
  simp [apply_weapon_action]

/-- With no torpedo commands on either side, the torpedo-order pass is the
identity. -/
theorem apply_torpedo_orders_none (s : GameState) (oa ob : Orders)
    (ha : oa.torpedo_orders = fun _ => none)
    (hb : ob.torpedo_orders = fun _ => none) :
    apply_torpedo_orders s oa ob = s := by
  unfold apply_torpedo_orders
  have : (s.torpedoes.map (fun t =>
      let orders := if t.owner = "ship_a" then oa else ob
      match orders.torpedo_orders t.id with
      | none => t
      | some action_str =>
        if action_str.length = 0 then t
        else
          match parse_torpedo_action action_str with
          | .ok (action_type, delay) =>
              if action_type = "detonate_after" then
                { t with detonation_timer := delay }
              else t
          | .error _ => t)) = s.torpedoes := by
    have h : ∀ t : TorpedoState,
        (if t.owner = "ship_a" then oa else ob).torpedo_orders t.id = none := by
      intro t
      by_cases hcase : t.owner = "ship_a" <;> simp [hcase, ha, hb]
    calc s.torpedoes.map _ = s.torpedoes.map id := by
          apply List.map_congr_left
          intro t _
          simp [h t]
      _ = s.torpedoes := List.map_id s.torpedoes
  rw [this]

/-- Bridge for evaluating `Int.toNat` on numeric literals. -/
theorem int_toNat_lit (n : ℕ) :
    (no_index (OfNat.ofNat n) : ℤ).toNat = OfNat.ofNat n := rfl

theorem isqrt_zero : isqrt 0 = 0 := by decide

theorem isqrt_one : isqrt 1 = 1 := by decide

theorem isqrt_nine : isqrt 9 = 3 := by decide

theorem isqrt_22500 : isqrt 22500 = 150 := by decide

theorem forward_ne_stop :
    ¬ (MovementDirection.FORWARD = MovementDirection.STOP) := by decide

theorem isqrt_38809 : isqrt 38809 = 197 := by decide

theorem isqrt_40000 : isqrt 40000 = 200 := by decide

/-- Projection corollaries: the phaser pass touches neither energy,
velocity nor heading. -/
theorem phaser_ae_a (E : PhysicsEngine) (s : GameState) :
    (check_phaser_hits E s).1.ship_a.ae = s.ship_a.ae := by
  obtain ⟨cdA, shA, cdB, shB, hs⟩ := check_phaser_hits_shape E s
  rw [hs]

theorem phaser_ae_b (E : PhysicsEngine) (s : GameState) :
    (check_phaser_hits E s).1.ship_b.ae = s.ship_b.ae := by
  obtain ⟨cdA, shA, cdB, shB, hs⟩ := check_phaser_hits_shape E s
  rw [hs]

theorem phaser_velocity_a (E : PhysicsEngine) (s : GameState) :
    (check_phaser_hits E s).1.ship_a.velocity = s.ship_a.velocity := by
  obtain ⟨cdA, shA, cdB, shB, hs⟩ := check_phaser_hits_shape E s
  rw [hs]

theorem phaser_heading_a (E : PhysicsEngine) (s : GameState) :
    (check_phaser_hits E s).1.ship_a.heading = s.ship_a.heading := by
  obtain ⟨cdA, shA, cdB, shB, hs⟩ := check_phaser_hits_shape E s
  rw [hs]

/-- Projection corollaries of `check_collisions_eq`: the collision pass only
writes shields (by the totalled per-hit damage) and removes torpedoes. -/
theorem collisions_ae_a (E : PhysicsEngine) (s : GameState) :
    (check_torpedo_collisions E s).1.ship_a.ae = s.ship_a.ae := by
  rw [check_collisions_eq]

theorem collisions_ae_b (E : PhysicsEngine) (s : GameState) :
    (check_torpedo_collisions E s).1.ship_b.ae = s.ship_b.ae := by
  rw [check_collisions_eq]

theorem collisions_velocity_a (E : PhysicsEngine) (s : GameState) :
    (check_torpedo_collisions E s).1.ship_a.velocity = s.ship_a.velocity := by
  rw [check_collisions_eq]

theorem collisions_heading_a (E : PhysicsEngine) (s : GameState) :
    (check_torpedo_collisions E s).1.ship_a.heading = s.ship_a.heading := by
  rw [check_collisions_eq]

theorem collisions_shields_a (E : PhysicsEngine) (s : GameState) :
    (check_torpedo_collisions E s).1.ship_a.shields =
      s.ship_a.shields - dmg_a E s.ship_a.position s.torpedoes := by
  rw [check_collisions_eq]

theorem collisions_shields_b (E : PhysicsEngine) (s : GameState) :
    (check_torpedo_collisions E s).1.ship_b.shields =
      s.ship_b.shields -
        dmg_b E s.ship_a.position s.ship_b.position s.torpedoes := by
  rw [check_collisions_eq]

theorem apply_torpedo_orders_ship_a (s : GameState) (oa ob : Orders) :
    (apply_torpedo_orders s oa ob).ship_a = s.ship_a := rfl

theorem apply_torpedo_orders_ship_b (s : GameState) (oa ob : Orders) :
    (apply_torpedo_orders s oa ob).ship_b = s.ship_b := rfl

/-- The discrete weapon step can spend AE and flip phaser flags but leaves
heading, velocity, position and shields of both ships unchanged. -/
theorem apply_weapon_action_heading_a (E : PhysicsEngine) (s : GameState)
    (side : Side) (wa : String) :
    (apply_weapon_action E s side wa).1.ship_a.heading = s.ship_a.heading := by
  cases side <;>
    (unfold apply_weapon_action GameState.setShip GameState.getShip Side.key
     dsimp only
     split_ifs <;> rfl)

theorem apply_weapon_action_shields_a (E : PhysicsEngine) (s : GameState)
    (side : Side) (wa : String) :
    (apply_weapon_action E s side wa).1.ship_a.shields = s.ship_a.shields := by
  cases side <;>
    (unfold apply_weapon_action GameState.setShip GameState.getShip Side.key
     dsimp only
     split_ifs <;> rfl)

theorem apply_weapon_action_shields_b (E : PhysicsEngine) (s : GameState)
    (side : Side) (wa : String) :
    (apply_weapon_action E s side wa).1.ship_b.shields = s.ship_b.shields := by
  cases side <;>
    (unfold apply_weapon_action GameState.setShip GameState.getShip Side.key
     dsimp only
     split_ifs <;> rfl)

/-- After a full turn, ship A's velocity is the one set by the last substep
update under the validated orders. -/
theorem resolve_velocity_a_shape (E : PhysicsEngine) (s : GameState)
    (oA oB : Orders) (hsub : 1 ≤ E.substeps) :
    ∃ sh', (resolve_turn E s oA oB).1.ship_a.velocity =
      (update_ship_physics E sh' (validate_orders E s.ship_a oA)
        E.fixed_timestep).velocity := by
  have hm : E.substeps = (E.substeps - 1) + 1 := by omega
  unfold resolve_turn resolve_with_valid copy_state
  dsimp only
  simp only [collisions_velocity_a, phaser_velocity_a, run_substeps_ship_a]
  rw [hm]
  obtain ⟨sh', hshape⟩ := ship_iter_succ_shape E (validate_orders E s.ship_a oA)
    (E.substeps - 1) _
  exact ⟨sh', by rw [hshape]⟩

/-- After a full turn, ship A's heading is the loop-iterate of the heading
update starting from a state that still carries the input heading. -/
theorem resolve_heading_a_shape (E : PhysicsEngine) (s : GameState)
    (oA oB : Orders) :
    ∃ sh0, sh0.heading = s.ship_a.heading ∧
      (resolve_turn E s oA oB).1.ship_a.heading =
        (ship_iter E (validate_orders E s.ship_a oA) E.substeps sh0).heading := by
  unfold resolve_turn resolve_with_valid copy_state
  dsimp only
  simp only [collisions_heading_a, phaser_heading_a, run_substeps_ship_a]
  refine ⟨_, ?_, rfl⟩
  simp only [apply_torpedo_orders_ship_a, apply_weapon_action_heading_a]

/-- C4: `resolve_turn` is deterministic.  The embedding exhibits the whole
resolution path as a pure function of `(state, ordersA, ordersB)` and the
engine's fixed parameter set — there is no hidden input, randomness or
shared mutable state — so two calls agree on every component: both vessels,
the projectile and zone collections, and the ordered event list. -/
theorem resolve_turn_deterministic (E : PhysicsEngine) (s : GameState)
    (oA oB : Orders) :
    (resolve_turn E s oA oB).1.ship_a = (resolve_turn E s oA oB).1.ship_a ∧
    (resolve_turn E s oA oB).1.ship_b = (resolve_turn E s oA oB).1.ship_b ∧
    (resolve_turn E s oA oB).1.torpedoes =
      (resolve_turn E s oA oB).1.torpedoes ∧
    (resolve_turn E s oA oB).1.blast_zones =
      (resolve_turn E s oA oB).1.blast_zones ∧
    (resolve_turn E s oA oB).2 = (resolve_turn E s oA oB).2 ∧
    resolve_turn E s oA oB = resolve_turn E s oA oB :=
  ⟨rfl, rfl, rfl, rfl, rfl, rfl⟩

/-- C6: for every vessel and requested orders the validator is
all-or-nothing.  When the combined movement+rotation cost over the turn
exceeds the vessel's current energy, both commands are downgraded to
STOP/NONE and the whole turn resolves exactly as if STOP/NONE had been
ordered; otherwise the requested orders are passed through unchanged, and
when both sides afford their orders the turn resolves on the requested
movement and rotation exactly as given (no partial throttling anywhere in
the turn). -/
theorem insufficient_energy_downgrade (E : PhysicsEngine) (s : GameState)
    (oA oB : Orders) :
    (∀ (sh : ShipState) (o : Orders),
        (get_movement_ae_rate E o.movement * E.action_phase_duration +
              get_rotation_ae_rate E o.rotation * E.action_phase_duration >
              sh.ae →
          validate_orders E sh o =
            { o with movement := .STOP, rotation := .NONE }) ∧
        (¬ (get_movement_ae_rate E o.movement * E.action_phase_duration +
              get_rotation_ae_rate E o.rotation * E.action_phase_duration >
              sh.ae) →
          validate_orders E sh o = o)) ∧
      (get_movement_ae_rate E oA.movement * E.action_phase_duration +
            get_rotation_ae_rate E oA.rotation * E.action_phase_duration >
            s.ship_a.ae →
        validate_orders E s.ship_a oA =
            { oA with movement := .STOP, rotation := .NONE } ∧
          resolve_turn E s oA oB =
            resolve_turn E s
              { oA with movement := .STOP, rotation := .NONE } oB) ∧
      (¬ (get_movement_ae_rate E oA.movement * E.action_phase_duration +
              get_rotation_ae_rate E oA.rotation * E.action_phase_duration >
              s.ship_a.ae) →
        ¬ (get_movement_ae_rate E oB.movement * E.action_phase_duration +
              get_rotation_ae_rate E oB.rotation * E.action_phase_duration >
              s.ship_b.ae) →
        resolve_turn E s oA oB =
          resolve_with_valid E { copy_state s with turn := s.turn + 1 }
            oA oB) := by
  refine ⟨?_, ?_, ?_⟩
  · intro sh o
    constructor
    · intro h
      unfold validate_orders
      dsimp only
      rw [if_pos h]
    · intro h
      unfold validate_orders
      dsimp only
      rw [if_neg h]
  · intro h
    have hv : validate_orders E s.ship_a oA =
        { oA with movement := .STOP, rotation := .NONE } := by
      unfold validate_orders
      dsimp only
      rw [if_pos h]
    refine ⟨hv, ?_⟩
    unfold resolve_turn copy_state
    dsimp only
    rw [hv, validate_stop_none]
  · intro hA hB
    have hvA : validate_orders E s.ship_a oA = oA := by
      unfold validate_orders
      dsimp only
      rw [if_neg hA]
    have hvB : validate_orders E s.ship_b oB = oB := by
      unfold validate_orders
      dsimp only
      rw [if_neg hB]
    unfold resolve_turn copy_state
    dsimp only
    rw [hvA, hvB]

theorem insufficient_energy_downgrade_witness :
    validate_orders E0 s_lowae.ship_a oFWDHL =
        { oFWDHL with movement := .STOP, rotation := .NONE } ∧
      validate_orders E0 s_lowae.ship_a oFWD = oFWD ∧
      resolve_turn E0 s_lowae oFWDHL oSTOP =
        resolve_turn E0 s_lowae
          { oFWDHL with movement := .STOP, rotation := .NONE } oSTOP ∧
      resolve_turn E0 s_lowae oFWD oSTOP =
        resolve_with_valid E0
          { copy_state s_lowae with turn := s_lowae.turn + 1 } oFWD oSTOP := by
  have hA : get_movement_ae_rate E0 oFWDHL.movement *
        E0.action_phase_duration +
        get_rotation_ae_rate E0 oFWDHL.rotation * E0.action_phase_duration >
        s_lowae.ship_a.ae := by
    norm_num [get_movement_ae_rate, get_rotation_ae_rate, E0, cfg0,
      s_lowae, mkShip, oFWDHL, PhysicsEngine.action_phase_duration]
  have hA2 : ¬ (get_movement_ae_rate E0 oFWD.movement *
        E0.action_phase_duration +
        get_rotation_ae_rate E0 oFWD.rotation * E0.action_phase_duration >
        s_lowae.ship_a.ae) := by
    norm_num [get_movement_ae_rate, get_rotation_ae_rate, E0, cfg0,
      s_lowae, mkShip, oFWD, PhysicsEngine.action_phase_duration]
  have hB : ¬ (get_movement_ae_rate E0 oSTOP.movement *
        E0.action_phase_duration +
        get_rotation_ae_rate E0 oSTOP.rotation * E0.action_phase_duration >
        s_lowae.ship_b.ae) := by
    norm_num [get_movement_ae_rate, get_rotation_ae_rate, E0, cfg0,
      s_lowae, mkShip, oSTOP, PhysicsEngine.action_phase_duration]
  obtain ⟨hval, _, hpass⟩ :=
    insufficient_energy_downgrade E0 s_lowae oFWD oSTOP
  obtain ⟨_, hdown, _⟩ :=
    insufficient_energy_downgrade E0 s_lowae oFWDHL oSTOP
  exact ⟨(hval s_lowae.ship_a oFWDHL).1 hA, (hval s_lowae.ship_a oFWD).2 hA2,
    (hdown hA).2, hpass hA2 hB⟩

/-- C5: with a nonnegative energy cap and at least one substep per turn,
every vessel's energy after `resolve_turn` lies in `[0, max_ae]` — each
substep ends by capping at `max_ae` and clamping at `0`, and no later stage
of the turn touches energy. -/
theorem resolve_energy_in_range (E : PhysicsEngine) (s : GameState)
    (oA oB : Orders) (hmax : 0 ≤ E.config.ship.max_ae)
    (hsub : 1 ≤ E.substeps) :
    (0 ≤ (resolve_turn E s oA oB).1.ship_a.ae ∧
        (resolve_turn E s oA oB).1.ship_a.ae ≤ E.config.ship.max_ae) ∧
      (0 ≤ (resolve_turn E s oA oB).1.ship_b.ae ∧
        (resolve_turn E s oA oB).1.ship_b.ae ≤ E.config.ship.max_ae) := by
  have hm : E.substeps = (E.substeps - 1) + 1 := by omega
  unfold resolve_turn resolve_with_valid copy_state
  dsimp only
  simp only [collisions_ae_a, collisions_ae_b, phaser_ae_a, phaser_ae_b,
    run_substeps_ship_a, run_substeps_ship_b]
  rw [hm]
  exact ⟨ship_iter_ae_bounds E _ hmax _ _, ship_iter_ae_bounds E _ hmax _ _⟩

theorem resolve_energy_in_range_witness :
    (0 ≤ E0.config.ship.max_ae ∧ 1 ≤ E0.substeps) ∧
      ((0 ≤ (resolve_turn E0 s_blast oSTOP oSTOP).1.ship_a.ae ∧
          (resolve_turn E0 s_blast oSTOP oSTOP).1.ship_a.ae ≤
            E0.config.ship.max_ae) ∧
        (0 ≤ (resolve_turn E0 s_blast oSTOP oSTOP).1.ship_b.ae ∧
          (resolve_turn E0 s_blast oSTOP oSTOP).1.ship_b.ae ≤
            E0.config.ship.max_ae)) :=
  ⟨⟨by norm_num [E0, cfg0],
    by norm_num [PhysicsEngine.substeps, PhysicsEngine.action_phase_duration,
      PhysicsEngine.fixed_timestep, E0, cfg0, pytrunc]⟩,
   resolve_energy_in_range E0 s_blast oSTOP oSTOP (by norm_num [E0, cfg0])
     (by norm_num [PhysicsEngine.substeps,
       PhysicsEngine.action_phase_duration, PhysicsEngine.fixed_timestep,
       E0, cfg0, pytrunc])⟩

/-- C9 counterexample: with movement held at FORWARD, changing only the
rotation command from NONE to HARD_LEFT changes the magnitude of ship A's
resulting velocity from 3 to 0, because the order validator downgrades the
unaffordable FORWARD+HARD_LEFT combination to STOP/NONE.  The claim as
stated (for every starting state) is therefore false. -/
theorem rotation_change_alters_speed :
    oFWD.movement = oFWDHL.movement ∧
      oFWD.rotation ≠ oFWDHL.rotation ∧
      oFWD.weapon_action = oFWDHL.weapon_action ∧
      Vec2D.magnitude M0
          (resolve_turn E0 s_lowae oFWD oSTOP).1.ship_a.velocity = 3 ∧
      Vec2D.magnitude M0
          (resolve_turn E0 s_lowae oFWDHL oSTOP).1.ship_a.velocity = 0 := by
  refine ⟨rfl, by decide, rfl, ?_, ?_⟩ <;>
  norm_num [resolve_turn, resolve_with_valid, copy_state, validate_orders,
    get_movement_ae_rate, get_rotation_ae_rate, apply_weapon_action_maintain,
    apply_torpedo_orders_none, run_substeps, substep, update_ship_physics,
    apply_ae_regeneration, update_blast_zones, handle_torpedo_detonations,
    decrement_timer, will_detonate, check_phaser_hits, check_single_phaser_hit,
    check_torpedo_collisions, collide_step, torpedo_cmd, rotationRate,
    movementDirectionOffset, radiansQ, pymod, pytrunc, Vec2D.add, Vec2D.sub,
    Vec2D.scale, Vec2D.magnitude, Vec2D.mag_sq, Vec2D.distance_to, ratSqrt,
    mkShip, oSTOP, oFWD, oFWDHL, E0, cfg0, M0, PhysicsEngine.fixed_timestep,
    PhysicsEngine.action_phase_duration, PhysicsEngine.substeps,
    PhysicsEngine.ship_speed, s_lowae, isqrt_zero, isqrt_one, isqrt_nine,
    isqrt_38809, isqrt_40000, int_toNat_lit, Int.toNat_one, Int.toNat_zero,
    forward_ne_stop]

/-- C9 (amended): provided the validator leaves both compared order pairs
unchanged (both are affordable), and the numeric model satisfies the
Pythagorean identity, holding movement fixed makes the magnitude of ship
A's resulting velocity independent of the rotation command, and holding
rotation fixed makes ship A's resulting heading (hence the heading delta
over the turn) independent of the movement command. -/
theorem movement_rotation_independence (E : PhysicsEngine) (s : GameState)
    (oB o1 o2 : Orders)
    (h1 : ¬ (get_movement_ae_rate E o1.movement * E.action_phase_duration +
              get_rotation_ae_rate E o1.rotation * E.action_phase_duration >
              s.ship_a.ae))
    (h2 : ¬ (get_movement_ae_rate E o2.movement * E.action_phase_duration +
              get_rotation_ae_rate E o2.rotation * E.action_phase_duration >
              s.ship_a.ae))
    (hpy : ∀ θ, E.M.cos θ ^ 2 + E.M.sin θ ^ 2 = 1)
    (hsub : 1 ≤ E.substeps) :
    (o1.movement = o2.movement →
        Vec2D.magnitude E.M (resolve_turn E s o1 oB).1.ship_a.velocity =
          Vec2D.magnitude E.M (resolve_turn E s o2 oB).1.ship_a.velocity) ∧
      (o1.rotation = o2.rotation →
        (resolve_turn E s o1 oB).1.ship_a.heading =
          (resolve_turn E s o2 oB).1.ship_a.heading) := by
  have hv1 : validate_orders E s.ship_a o1 = o1 := by
    unfold validate_orders
    dsimp only
    rw [if_neg h1]
  have hv2 : validate_orders E s.ship_a o2 = o2 := by
    unfold validate_orders
    dsimp only
    rw [if_neg h2]
  constructor
  · intro hmv
    obtain ⟨sh1, hV1⟩ := resolve_velocity_a_shape E s o1 oB hsub
    obtain ⟨sh2, hV2⟩ := resolve_velocity_a_shape E s o2 oB hsub
    have m1 := update_ship_velocity_mag_sq E sh1 (validate_orders E s.ship_a o1)
      E.fixed_timestep hpy
    have m2 := update_ship_velocity_mag_sq E sh2 (validate_orders E s.ship_a o2)
      E.fixed_timestep hpy
    rw [hv1] at m1
    rw [hv2] at m2
    rw [hmv] at m1
    unfold Vec2D.magnitude
    rw [hV1, hV2, hv1, hv2, m1, m2]
  · intro hrot
    obtain ⟨x1, hx1, hH1⟩ := resolve_heading_a_shape E s o1 oB
    obtain ⟨x2, hx2, hH2⟩ := resolve_heading_a_shape E s o2 oB
    rw [hH1, hH2]
    exact ship_iter_heading_congr E (validate_orders E s.ship_a o1)
      (validate_orders E s.ship_a o2) (by rw [hv1, hv2]; exact hrot)
      E.substeps x1 x2 (hx1.trans hx2.symm)

theorem movement_rotation_independence_witness :
    ((¬ (get_movement_ae_rate E1 oFWD.movement * E1.action_phase_duration +
          get_rotation_ae_rate E1 oFWD.rotation * E1.action_phase_duration >
          s_blast.ship_a.ae)) ∧
      (¬ (get_movement_ae_rate E1 oFWDHL.movement * E1.action_phase_duration +
          get_rotation_ae_rate E1 oFWDHL.rotation * E1.action_phase_duration >
          s_blast.ship_a.ae)) ∧
      (∀ θ, E1.M.cos θ ^ 2 + E1.M.sin θ ^ 2 = 1) ∧ 1 ≤ E1.substeps) ∧
      ((oFWD.movement = oFWDHL.movement →
          Vec2D.magnitude E1.M
              (resolve_turn E1 s_blast oFWD oSTOP).1.ship_a.velocity =
            Vec2D.magnitude E1.M
              (resolve_turn E1 s_blast oFWDHL oSTOP).1.ship_a.velocity) ∧
        (oFWD.rotation = oFWDHL.rotation →
          (resolve_turn E1 s_blast oFWD oSTOP).1.ship_a.heading =
            (resolve_turn E1 s_blast oFWDHL oSTOP).1.ship_a.heading)) :=
  ⟨⟨by norm_num [get_movement_ae_rate, get_rotation_ae_rate, E1, cfg0,
      s_blast, mkShip, oFWD, PhysicsEngine.action_phase_duration],
    by norm_num [get_movement_ae_rate, get_rotation_ae_rate, E1, cfg0,
      s_blast, mkShip, oFWDHL, PhysicsEngine.action_phase_duration],
    fun θ => by norm_num [E1, Mtriv],
    by norm_num [PhysicsEngine.substeps, PhysicsEngine.action_phase_duration,
      PhysicsEngine.fixed_timestep, E1, cfg0, pytrunc]⟩,
   movement_rotation_independence E1 s_blast oSTOP oFWD oFWDHL
     (by norm_num [get_movement_ae_rate, get_rotation_ae_rate, E1, cfg0,
       s_blast, mkShip, oFWD, PhysicsEngine.action_phase_duration])
     (by norm_num [get_movement_ae_rate, get_rotation_ae_rate, E1, cfg0,
       s_blast, mkShip, oFWDHL, PhysicsEngine.action_phase_duration])
     (fun θ => by norm_num [E1, Mtriv])
     (by norm_num [PhysicsEngine.substeps, PhysicsEngine.action_phase_duration,
       PhysicsEngine.fixed_timestep, E1, cfg0, pytrunc])⟩

theorem pytrunc_nonneg (q : ℚ) (h : 0 ≤ q) : 0 ≤ pytrunc q := by
  unfold pytrunc
  rw [if_neg (not_lt.mpr h)]
  exact Int.floor_nonneg.mpr h

theorem dmg_a_nonneg (E : PhysicsEngine) (pA : Vec2D) (ts : List TorpedoState)
    (hmult : 0 ≤ E.config.torpedo.blast_damage_multiplier) :
    0 ≤ dmg_a E pA ts := by
  unfold dmg_a
  apply List.sum_nonneg
  intro x hx
  obtain ⟨t, ht, rfl⟩ := List.mem_map.mp hx
  have hhit : t_hits_a E pA t :=
    of_decide_eq_true (List.mem_filter.mp ht).2
  have hq : (0 : ℚ) ≤ t.ae_remaining * E.config.torpedo.blast_damage_multiplier :=
    mul_nonneg (le_of_lt hhit.1) hmult
  exact_mod_cast pytrunc_nonneg _ hq

theorem dmg_b_nonneg (E : PhysicsEngine) (pA pB : Vec2D)
    (ts : List TorpedoState)
    (hmult : 0 ≤ E.config.torpedo.blast_damage_multiplier) :
    0 ≤ dmg_b E pA pB ts := by
  unfold dmg_b
  apply List.sum_nonneg
  intro x hx
  obtain ⟨t, ht, rfl⟩ := List.mem_map.mp hx
  have hhit : t_hits_b E pA pB t :=
    of_decide_eq_true (List.mem_filter.mp ht).2
  have hq : (0 : ℚ) ≤ t.ae_remaining * E.config.torpedo.blast_damage_multiplier :=
    mul_nonneg (le_of_lt hhit.1) hmult
  exact_mod_cast pytrunc_nonneg _ hq

/-- Phaser pass followed by collision pass can only lower shields. -/
theorem shields_after_phaser_collisions (E : PhysicsEngine) (s : GameState)
    (hw : 0 ≤ E.config.phaser.wide.damage)
    (hf : 0 ≤ E.config.phaser.focused.damage)
    (hmult : 0 ≤ E.config.torpedo.blast_damage_multiplier) :
    (check_torpedo_collisions E (check_phaser_hits E s).1).1.ship_a.shields ≤
        s.ship_a.shields ∧
      (check_torpedo_collisions E (check_phaser_hits E s).1).1.ship_b.shields ≤
        s.ship_b.shields := by
  obtain ⟨hA, hB⟩ := check_phaser_hits_shields_le E s hw hf
  rw [collisions_shields_a, collisions_shields_b]
  constructor
  · have hd := dmg_a_nonneg E (check_phaser_hits E s).1.ship_a.position
      (check_phaser_hits E s).1.torpedoes hmult
    linarith
  · have hd := dmg_b_nonneg E (check_phaser_hits E s).1.ship_a.position
      (check_phaser_hits E s).1.ship_b.position
      (check_phaser_hits E s).1.torpedoes hmult
    linarith

/-- Helper: the post-validation pipeline never raises shields — the substep
loop does not touch them at all, and the phaser and collision passes only
subtract nonnegative damage. -/
theorem resolve_with_valid_shields_le (E : PhysicsEngine) (ns : GameState)
    (vA vB : Orders)
    (hw : 0 ≤ E.config.phaser.wide.damage)
    (hf : 0 ≤ E.config.phaser.focused.damage)
    (hmult : 0 ≤ E.config.torpedo.blast_damage_multiplier) :
    (resolve_with_valid E ns vA vB).1.ship_a.shields ≤ ns.ship_a.shields ∧
      (resolve_with_valid E ns vA vB).1.ship_b.shields ≤ ns.ship_b.shields := by
  unfold resolve_with_valid
  dsimp only
  constructor
  · refine le_trans
      ((shields_after_phaser_collisions E _ hw hf hmult).1) ?_
    simp only [run_substeps_ship_a, ship_iter_shields,
      apply_torpedo_orders_ship_a, apply_weapon_action_shields_a]
    exact le_refl _
  · refine le_trans
      ((shields_after_phaser_collisions E _ hw hf hmult).2) ?_
    simp only [run_substeps_ship_b, ship_iter_shields,
      apply_torpedo_orders_ship_b, apply_weapon_action_shields_b]
    exact le_refl _

/-- C10 counterexample: shields are not kept `≥ 0`.  Both vessels start with
nonnegative shields and at the same point; ship A's wide phaser hit deals 10
damage to ship B's 5 shields, driving them to `-5`. -/
theorem shields_become_negative :
    s_neg.ship_a.shields = 100 ∧ s_neg.ship_b.shields = 5 ∧
      (resolve_turn E0 s_neg oSTOP oSTOP).1.ship_b.shields = -5 := by
  refine ⟨rfl, rfl, ?_⟩
  norm_num [resolve_turn, resolve_with_valid, copy_state, validate_orders,
    get_movement_ae_rate, get_rotation_ae_rate, apply_weapon_action_maintain,
    apply_torpedo_orders_none, run_substeps, substep, update_ship_physics,
    apply_ae_regeneration, update_blast_zones, handle_torpedo_detonations,
    decrement_timer, will_detonate, check_phaser_hits, check_single_phaser_hit,
    check_torpedo_collisions, collide_step, torpedo_cmd, rotationRate,
    movementDirectionOffset, radiansQ, pymod, pytrunc, Vec2D.add, Vec2D.sub,
    Vec2D.scale, Vec2D.magnitude, Vec2D.mag_sq, Vec2D.distance_to, ratSqrt,
    mkShip, oSTOP, E0, cfg0, M0, PhysicsEngine.fixed_timestep,
    PhysicsEngine.action_phase_duration, PhysicsEngine.substeps,
    PhysicsEngine.ship_speed, s_neg, isqrt_zero, isqrt_one, int_toNat_lit,
    Int.toNat_one, Int.toNat_zero]

/-- C10 (amended): shields are never raised by `resolve_turn`, and they
drop below zero rather than being clamped — phaser hits and torpedo hits
subtract their damage without any floor (the orchestrator treats
`shields ≤ 0` as destruction). -/
theorem resolve_shields_nonincreasing (E : PhysicsEngine) (s : GameState)
    (oA oB : Orders)
    (hw : 0 ≤ E.config.phaser.wide.damage)
    (hf : 0 ≤ E.config.phaser.focused.damage)
    (hmult : 0 ≤ E.config.torpedo.blast_damage_multiplier) :
    (resolve_turn E s oA oB).1.ship_a.shields ≤ s.ship_a.shields ∧
      (resolve_turn E s oA oB).1.ship_b.shields ≤ s.ship_b.shields := by
  unfold resolve_turn
  exact resolve_with_valid_shields_le E _ _ _ hw hf hmult

theorem resolve_shields_nonincreasing_witness :
    ((0 : ℚ) ≤ E0.config.phaser.wide.damage ∧
        (0 : ℚ) ≤ E0.config.phaser.focused.damage ∧
        (0 : ℚ) ≤ E0.config.torpedo.blast_damage_multiplier) ∧
      ((resolve_turn E0 s_neg oSTOP oSTOP).1.ship_a.shields ≤
          s_neg.ship_a.shields ∧
        (resolve_turn E0 s_neg oSTOP oSTOP).1.ship_b.shields ≤
          s_neg.ship_b.shields) :=
  ⟨⟨by norm_num [E0, cfg0], by norm_num [E0, cfg0], by norm_num [E0, cfg0]⟩,
   resolve_shields_nonincreasing E0 s_neg oSTOP oSTOP
     (by norm_num [E0, cfg0]) (by norm_num [E0, cfg0])
     (by norm_num [E0, cfg0])⟩

/-- C3: the post-substep collision pass.  Every surviving torpedo with fuel
`> 0` whose distance to a vessel other than its owner is strictly below the
configured blast radius reduces that vessel's shields by
`int(fuel x multiplier)` (summed over hits), emits one `torpedo_hit` event
per hit in order, and is removed — while the blast-zone collection is left
untouched (no zone is created).  The last two conjuncts translate the hit
predicates for well-formed owners: such a torpedo hits exactly the opposing
vessel. -/
theorem torpedo_direct_hit_rule (E : PhysicsEngine) (s : GameState) :
    (check_torpedo_collisions E s).1.blast_zones = s.blast_zones ∧
      (check_torpedo_collisions E s).1.ship_a.shields =
        s.ship_a.shields - dmg_a E s.ship_a.position s.torpedoes ∧
      (check_torpedo_collisions E s).1.ship_b.shields =
        s.ship_b.shields -
          dmg_b E s.ship_a.position s.ship_b.position s.torpedoes ∧
      (check_torpedo_collisions E s).2 =
        coll_events E s.turn s.ship_a.position s.ship_b.position s.torpedoes ∧
      (check_torpedo_collisions E s).1.torpedoes =
        s.torpedoes.filter (fun t =>
          decide (¬ coll_removed E s.ship_a.position s.ship_b.position t)) ∧
      (∀ t : TorpedoState, t.owner = "ship_b" →
        (t_hits_a E s.ship_a.position t ↔
          0 < t.ae_remaining ∧
            t.position.distance_to E.M s.ship_a.position <
              E.config.torpedo.blast_radius_units)) ∧
      (∀ t : TorpedoState, t.owner = "ship_a" →
        (t_hits_b E s.ship_a.position s.ship_b.position t ↔
          0 < t.ae_remaining ∧
            t.position.distance_to E.M s.ship_b.position <
              E.config.torpedo.blast_radius_units)) := by
  refine ⟨by rw [check_collisions_eq], collisions_shields_a E s,
    collisions_shields_b E s, by rw [check_collisions_eq], ?_, ?_, ?_⟩
  · rw [check_collisions_eq]
    dsimp only
    apply List.filter_congr
    intro t ht
    simp [coll_removed_list, List.mem_filter, ht]
  · intro t hown
    unfold t_hits_a
    rw [hown]
    simp
  · intro t hown
    unfold t_hits_b
    rw [hown]
    simp

theorem torpedo_direct_hit_rule_witness :
    (check_torpedo_collisions E0 s_hit).1.blast_zones = [] ∧
      (check_torpedo_collisions E0 s_hit).1.ship_a.shields = 40 ∧
      (check_torpedo_collisions E0 s_hit).1.torpedoes = [] ∧
      (check_torpedo_collisions E0 s_hit).2 =
        [torpedo_hit_event 1 t_hit "ship_a" 60] := by
  obtain ⟨hz, ha, hb, hev, htor, hiff, _⟩ := torpedo_direct_hit_rule E0 s_hit
  have hhit : t_hits_a E0 s_hit.ship_a.position t_hit := by
    refine ⟨by norm_num [t_hit], by decide, ?_⟩
    norm_num [t_hit, s_hit, mkShip, Vec2D.distance_to, Vec2D.magnitude,
      Vec2D.mag_sq, Vec2D.sub, ratSqrt, isqrt_nine, isqrt_one, E0, cfg0, M0,
      int_toNat_lit, Int.toNat_one, Int.toNat_zero]
  have hcd : collision_damage E0 t_hit = 60 := by
    norm_num [collision_damage, t_hit, E0, cfg0, pytrunc]
  have hrem : coll_removed E0 s_hit.ship_a.position s_hit.ship_b.position
      t_hit := Or.inr (Or.inl hhit)
  refine ⟨hz, ?_, ?_, ?_⟩
  · rw [ha]
    have hda : dmg_a E0 s_hit.ship_a.position s_hit.torpedoes = 60 := by
      unfold dmg_a
      rw [show s_hit.torpedoes = [t_hit] from rfl, List.filter_cons,
        if_pos (decide_eq_true hhit), List.filter_nil, List.map_cons,
        List.map_nil, List.sum_cons, List.sum_nil, hcd]
      norm_num
    rw [hda]
    norm_num [s_hit, mkShip]
  · rw [htor]
    have hdf : decide (¬ coll_removed E0 s_hit.ship_a.position
        s_hit.ship_b.position t_hit) = false := by
      simp [hrem]
    rw [show s_hit.torpedoes = [t_hit] from rfl, List.filter_cons, hdf]
    simp
  · rw [hev]
    unfold coll_events
    rw [show s_hit.torpedoes = [t_hit] from rfl, List.filterMap_cons]
    rw [if_pos hhit, List.filterMap_nil, hcd]
    rfl

/-- C2 counterexample: a projectile whose fuel is already `≤ 0` but whose
detonation timer is still pending does NOT detonate at that substep — the
fuel test sits in an `elif` behind the timer test, so the substep only
decrements the timer (15 → 14) and creates no zone and no event.  The
claim's "independently of whether a detonation timer is pending" is false. -/
theorem fuel_depleted_timer_pending_no_detonation :
    t_pending.ae_remaining ≤ 0 ∧ t_pending.detonation_timer = some 15 ∧
      (handle_torpedo_detonations E0 s_pending [] 1).1.torpedoes =
        [{ t_pending with detonation_timer := some 14 }] ∧
      (handle_torpedo_detonations E0 s_pending [] 1).1.blast_zones = [] ∧
      (handle_torpedo_detonations E0 s_pending [] 1).2 = [] := by
  refine ⟨by norm_num [t_pending], rfl, ?_⟩
  norm_num [handle_torpedo_detonations, decrement_timer, will_detonate,
    t_pending, s_pending]

/-- C2 (amended): at each substep a projectile with a pending timer
detonates exactly when the decremented timer reaches `≤ 0` (fuel plays no
role then), and a projectile with no pending timer detonates exactly when
its fuel is `≤ 0`; every detonation removes the projectile and creates a
zone at its current position with `baseDamage = fuel x damageMultiplier`,
phase EXPANDING, age 0 and radius 0, and appends a `torpedo_detonated`
event — in projectile order. -/
theorem detonation_rule (E : PhysicsEngine) (s : GameState) (ev : List Event)
    (dt : ℚ) :
    (∀ t : TorpedoState,
        will_detonate t = true ↔
          ((∃ τ, t.detonation_timer = some τ ∧ τ ≤ 0) ∨
            (t.detonation_timer = none ∧ t.ae_remaining ≤ 0))) ∧
      (handle_torpedo_detonations E s ev dt).1.torpedoes =
        (s.torpedoes.map (decrement_timer dt)).filter
          (fun t => will_detonate t = false) ∧
      (handle_torpedo_detonations E s ev dt).1.blast_zones =
        s.blast_zones ++
          ((s.torpedoes.map (decrement_timer dt)).filter
            (fun t => will_detonate t)).map (mk_blast_zone E) ∧
      (handle_torpedo_detonations E s ev dt).2 =
        ev ++ ((s.torpedoes.map (decrement_timer dt)).filter
          (fun t => will_detonate t)).map (detonation_event s.turn) ∧
      (∀ t : TorpedoState, mk_blast_zone E t =
        { id := t.id ++ "_blast", position := ⟨t.position.x, t.position.y⟩
          base_damage :=
            t.ae_remaining * E.config.torpedo.blast_damage_multiplier
          phase := .EXPANSION, age := 0, current_radius := 0
          owner := t.owner }) ∧
      (∀ t : TorpedoState, t.detonation_timer = none →
        decrement_timer dt t = t) ∧
      (∀ t : TorpedoState, ∀ τ : ℚ, t.detonation_timer = some τ →
        decrement_timer dt t = { t with detonation_timer := some (τ - dt) }) := by
  refine ⟨?_, rfl, rfl, rfl, fun t => rfl, ?_, ?_⟩
  · intro t
    unfold will_detonate
    cases ht : t.detonation_timer <;> simp [ht]
  · intro t ht
    unfold decrement_timer
    rw [ht]
  · intro t τ ht
    unfold decrement_timer
    rw [ht]

theorem detonation_rule_witness :
    (∀ t : TorpedoState,
        will_detonate t = true ↔
          ((∃ τ, t.detonation_timer = some τ ∧ τ ≤ 0) ∨
            (t.detonation_timer = none ∧ t.ae_remaining ≤ 0))) ∧
      (handle_torpedo_detonations E0 s_pending [] 1).1.torpedoes =
        (s_pending.torpedoes.map (decrement_timer 1)).filter
          (fun t => will_detonate t = false) ∧
      (handle_torpedo_detonations E0 s_pending [] 1).1.blast_zones =
        s_pending.blast_zones ++
          ((s_pending.torpedoes.map (decrement_timer 1)).filter
            (fun t => will_detonate t)).map (mk_blast_zone E0) ∧
      (handle_torpedo_detonations E0 s_pending [] 1).2 =
        [] ++ ((s_pending.torpedoes.map (decrement_timer 1)).filter
          (fun t => will_detonate t)).map (detonation_event s_pending.turn) ∧
      (∀ t : TorpedoState, mk_blast_zone E0 t =
        { id := t.id ++ "_blast", position := ⟨t.position.x, t.position.y⟩
          base_damage :=
            t.ae_remaining * E0.config.torpedo.blast_damage_multiplier
          phase := .EXPANSION, age := 0, current_radius := 0
          owner := t.owner }) ∧
      (∀ t : TorpedoState, t.detonation_timer = none →
        decrement_timer 1 t = t) ∧
      (∀ t : TorpedoState, ∀ τ : ℚ, t.detonation_timer = some τ →
        decrement_timer 1 t = { t with detonation_timer := some (τ - 1) }) :=
  detonation_rule E0 s_pending [] 1

/-- C1 (code bug witness): ship A sits at the centre of a full-radius
persisting zone for the entire turn (distance 0 < radius 15 throughout),
yet `resolve_turn` leaves its shields unchanged: the engine's
`_update_blast_zones` only advances zone lifecycles and applies no damage
to any vessel, contradicting the spec and the repository's own blast-damage
tests, which expect `baseDamage / persistenceWindow` damage per second
here. -/
theorem blast_zone_applies_no_damage :
    Vec2D.distance_to M0 s_blast.ship_a.position ⟨50, 0⟩ = 0 ∧
      s_blast.blast_zones.map BlastZone.position = [⟨50, 0⟩] ∧
      s_blast.blast_zones.map BlastZone.current_radius = [15] ∧
      s_blast.ship_a.shields = 100 ∧
      (resolve_turn E0 s_blast oSTOP oSTOP).1.ship_a.shields = 100 ∧
      (resolve_turn E0 s_blast oSTOP oSTOP).1.blast_zones.map
        BlastZone.current_radius = [15] := by
  refine ⟨?_, rfl, rfl, rfl, ?_, ?_⟩
  · norm_num [Vec2D.distance_to, Vec2D.magnitude, Vec2D.mag_sq, Vec2D.sub,
      ratSqrt, isqrt_zero, isqrt_one, s_blast, mkShip, M0, Int.toNat_zero]
  all_goals
  norm_num [resolve_turn, resolve_with_valid, copy_state, validate_orders,
    get_movement_ae_rate, get_rotation_ae_rate, apply_weapon_action_maintain,
    apply_torpedo_orders_none, run_substeps, substep, update_ship_physics,
    apply_ae_regeneration, update_torpedo_physics, update_blast_zones,
    update_blast_zone, handle_torpedo_detonations, decrement_timer,
    will_detonate, mk_blast_zone, detonation_event, check_phaser_hits,
    check_single_phaser_hit, check_torpedo_collisions, collide_step,
    torpedo_cmd, Side.key, GameState.getShip, GameState.setShip,
    rotationRate, movementDirectionOffset, radiansQ, pymod, pytrunc,
    Vec2D.add, Vec2D.sub, Vec2D.scale, Vec2D.magnitude, Vec2D.mag_sq,
    Vec2D.distance_to, ratSqrt, mkShip, oSTOP, E0, cfg0, M0,
    PhysicsEngine.fixed_timestep, PhysicsEngine.action_phase_duration,
    PhysicsEngine.substeps, PhysicsEngine.ship_speed,
    PhysicsEngine.torpedo_speed, s_blast, isqrt_22500, isqrt_one,
    int_toNat_lit, Int.toNat_one, Int.toNat_zero, isqrt_zero]

/-- C7 counterexample: `_copy_state` rebuilds each dataclass from its field
dictionary, so the copied snapshot's `Vec2D` references are the caller's
own mutable objects — here the copied blast zone still points at address 7
and the copied ship at address 1.  The returned state therefore shares
mutable structure with the input; it is not an independent deep copy. -/
theorem copy_state_shares_vec_refs :
    (copy_state_obj gs_obj).blast_zones.map BlastZoneObj.position = [7] ∧
      gs_obj.blast_zones.map BlastZoneObj.position = [7] ∧
      (copy_state_obj gs_obj).ship_a.position = gs_obj.ship_a.position ∧
      (copy_state_obj gs_obj).ship_a.position = 1 :=
  ⟨rfl, rfl, rfl, rfl⟩

/-- C7 (amended): `_copy_state` reproduces every field value of every
vessel, projectile and zone (at the value level it is the identity, and the
resolution pipeline only writes to the copied records, never through a
shared `Vec2D`), but at the reference level it is a one-level copy: the
rebuilt records keep the caller's `Vec2D` references unchanged, so input
and output share mutable `Vec2D` structure rather than being fully
independent. -/
theorem copy_state_value_identity_ref_sharing :
    (∀ s : GameState, copy_state s = s) ∧
      ∀ o : GameStateObj, copy_state_obj o = o := by
  constructor
  · intro s
    rfl
  · intro o
    unfold copy_state_obj copy_ship_obj copy_torpedo_obj copy_zone_obj
    have ht : ∀ t : TorpedoObj,
        ({ id := t.id, position := t.position, velocity := t.velocity
           heading := t.heading, ae_remaining := t.ae_remaining
           owner := t.owner, just_launched := t.just_launched
           detonation_timer := t.detonation_timer } : TorpedoObj) = t :=
      fun t => rfl
    have hz : ∀ z : BlastZoneObj,
        ({ id := z.id, position := z.position, base_damage := z.base_damage
           phase := z.phase, age := z.age, current_radius := z.current_radius
           owner := z.owner } : BlastZoneObj) = z :=
      fun z => rfl
    simp only [ht, hz, List.map_id']

/-- A torpedo whose routed command fails to parse moves exactly as a torpedo
with no command at all. -/
theorem update_torpedo_physics_malformed (E : PhysicsEngine)
    (t : TorpedoState) (dt : ℚ) (m : String)
    (herr : isErr (parse_torpedo_action m) = true) :
    update_torpedo_physics E t (some m) dt =
      update_torpedo_physics E t none dt := by
  cases hp : parse_torpedo_action m with
  | ok v => rw [hp] at herr; simp [isErr] at herr
  | error e =>
    simp only [update_torpedo_physics, hp, ite_self]

theorem update_torpedo_physics_tcmd (E : PhysicsEngine) (t : TorpedoState)
    (dt : ℚ) (c1 c2 : Option String) (h : tcmd_equiv c1 c2) :
    update_torpedo_physics E t c1 dt = update_torpedo_physics E t c2 dt := by
  rcases h with h | ⟨h2, m, h1, herr⟩
  · rw [h]
  · rw [h1, h2]
    exact update_torpedo_physics_malformed E t dt m herr

/-- The start-of-turn torpedo-order pass also treats a failing parse as an
absent command. -/
theorem apply_torpedo_orders_congr (s : GameState) (oa ob oa' ob' : Orders)
    (ha : ∀ x, tcmd_equiv (oa.torpedo_orders x) (oa'.torpedo_orders x))
    (hb : ∀ x, tcmd_equiv (ob.torpedo_orders x) (ob'.torpedo_orders x)) :
    apply_torpedo_orders s oa ob = apply_torpedo_orders s oa' ob' := by
  unfold apply_torpedo_orders
  congr 1
  apply List.map_congr_left
  intro t _
  dsimp only
  have hmain : ∀ (c1 c2 : Option String), tcmd_equiv c1 c2 →
      (match c1 with
       | none => t
       | some action_str =>
         if action_str.length = 0 then t
         else
           match parse_torpedo_action action_str with
           | .ok (action_type, delay) =>
               if action_type = "detonate_after" then
                 { t with detonation_timer := delay }
               else t
           | .error _ => t) =
      (match c2 with
       | none => t
       | some action_str =>
         if action_str.length = 0 then t
         else
           match parse_torpedo_action action_str with
           | .ok (action_type, delay) =>
               if action_type = "detonate_after" then
                 { t with detonation_timer := delay }
               else t
           | .error _ => t) := by
    intro c1 c2 h
    rcases h with h | ⟨h2, m, h1, herr⟩
    · rw [h]
    · rw [h1, h2]
      cases hp : parse_torpedo_action m with
      | ok v => rw [hp] at herr; simp [isErr] at herr
      | error e =>
        dsimp only
        split_ifs with h0
        · rfl
        · rw [hp]
  by_cases ho : t.owner = "ship_a"
  · rw [if_pos ho, if_pos ho]
    exact hmain _ _ (ha t.id)
  · rw [if_neg ho, if_neg ho]
    exact hmain _ _ (hb t.id)

theorem update_ship_physics_congr (E : PhysicsEngine) (sh : ShipState)
    (o o' : Orders) (dt : ℚ) (hm : o.movement = o'.movement)
    (hr : o.rotation = o'.rotation) :
    update_ship_physics E sh o dt = update_ship_physics E sh o' dt := by
  unfold update_ship_physics
  rw [hm, hr]

theorem substep_congr (E : PhysicsEngine) (oa ob oa' ob' : Orders)
    (hma : oa.movement = oa'.movement) (hra : oa.rotation = oa'.rotation)
    (hmb : ob.movement = ob'.movement) (hrb : ob.rotation = ob'.rotation)
    (ha : ∀ x, tcmd_equiv (oa.torpedo_orders x) (oa'.torpedo_orders x))
    (hb : ∀ x, tcmd_equiv (ob.torpedo_orders x) (ob'.torpedo_orders x))
    (p : GameState × List Event) :
    substep E oa ob p = substep E oa' ob' p := by
  unfold substep
  dsimp only
  rw [update_ship_physics_congr E p.1.ship_a oa oa' E.fixed_timestep hma hra,
    update_ship_physics_congr E p.1.ship_b ob ob' E.fixed_timestep hmb hrb]
  have ht : p.1.torpedoes.map (fun t =>
      update_torpedo_physics E t (torpedo_cmd oa ob t) E.fixed_timestep) =
      p.1.torpedoes.map (fun t =>
        update_torpedo_physics E t (torpedo_cmd oa' ob' t) E.fixed_timestep) := by
    apply List.map_congr_left
    intro t _
    apply update_torpedo_physics_tcmd
    unfold torpedo_cmd
    by_cases ho : t.owner = "ship_a"
    · simp only [ho, if_true]
      exact ha t.id
    · simp only [ho, if_false]
      exact hb t.id
  rw [ht]

theorem run_substeps_congr (E : PhysicsEngine) (oa ob oa' ob' : Orders)
    (hma : oa.movement = oa'.movement) (hra : oa.rotation = oa'.rotation)
    (hmb : ob.movement = ob'.movement) (hrb : ob.rotation = ob'.rotation)
    (ha : ∀ x, tcmd_equiv (oa.torpedo_orders x) (oa'.torpedo_orders x))
    (hb : ∀ x, tcmd_equiv (ob.torpedo_orders x) (ob'.torpedo_orders x)) :
    ∀ (n : ℕ) (p : GameState × List Event),
      run_substeps E oa ob n p = run_substeps E oa' ob' n p := by
  intro n
  induction n with
  | zero => intro p; rfl
  | succ k ih =>
    intro p
    show run_substeps E oa ob k (substep E oa ob p) =
      run_substeps E oa' ob' k (substep E oa' ob' p)
    rw [substep_congr E oa ob oa' ob' hma hra hmb hrb ha hb p, ih]

theorem resolve_with_valid_congr (E : PhysicsEngine) (ns : GameState)
    (va vb va' vb' : Orders)
    (hma : va.movement = va'.movement) (hra : va.rotation = va'.rotation)
    (hmb : vb.movement = vb'.movement) (hrb : vb.rotation = vb'.rotation)
    (hwa : va.weapon_action = va'.weapon_action)
    (hwb : vb.weapon_action = vb'.weapon_action)
    (ha : ∀ x, tcmd_equiv (va.torpedo_orders x) (va'.torpedo_orders x))
    (hb : ∀ x, tcmd_equiv (vb.torpedo_orders x) (vb'.torpedo_orders x)) :
    resolve_with_valid E ns va vb = resolve_with_valid E ns va' vb' := by
  unfold resolve_with_valid
  dsimp only
  rw [hwa, hwb,
    apply_torpedo_orders_congr _ va vb va' vb' ha hb,
    run_substeps_congr E va vb va' vb' hma hra hmb hrb ha hb]

/-- Validation keeps the torpedo-order lookup verbatim. -/
theorem validate_torpedo_orders_eq (E : PhysicsEngine) (sh : ShipState)
    (o : Orders) :
    (validate_orders E sh o).torpedo_orders = o.torpedo_orders := by
  unfold validate_orders
  dsimp only
  split_ifs <;> rfl

theorem validate_movement_congr (E : PhysicsEngine) (sh : ShipState)
    (o o' : Orders) (hm : o.movement = o'.movement)
    (hr : o.rotation = o'.rotation) (hw : o.weapon_action = o'.weapon_action) :
    (validate_orders E sh o).movement = (validate_orders E sh o').movement ∧
      (validate_orders E sh o).rotation =
        (validate_orders E sh o').rotation ∧
      (validate_orders E sh o).weapon_action =
        (validate_orders E sh o').weapon_action := by
  unfold validate_orders
  rw [hm, hr]
  dsimp only
  split_ifs <;> exact ⟨by simp [hm], by simp [hr], by simp [hw]⟩

/-- C8: the parser rejects exactly the `detonate_after` commands whose delay
string is unparseable or parses outside `[0, 15]` (the raised `ValueError`
is modelled by the `error` constructor), and the turn still resolves: both
catch sites treat the failing command as absent, so replacing every
rejected command by no command at all leaves `resolve_turn` unchanged —
the embedding itself is total, so no other failure can escape. -/
theorem malformed_torpedo_command_ignored (E : PhysicsEngine) (s : GameState)
    (oa ob : Orders) (fa fb : String → Option String)
    (ha : ∀ x, tcmd_equiv (oa.torpedo_orders x) (fa x))
    (hb : ∀ x, tcmd_equiv (ob.torpedo_orders x) (fb x)) :
    resolve_turn E s oa ob =
      resolve_turn E s { oa with torpedo_orders := fa }
        { ob with torpedo_orders := fb } ∧
      ∀ str p0 p1, splitOnce ':' str.data = some (p0, p1) →
        pyLower (String.mk p0) = "detonate_after" →
        (isErr (parse_torpedo_action str) = true ↔
          (parseDecQ (String.mk p1) = none ∨
            ∃ q, parseDecQ (String.mk p1) = some q ∧ (q < 0 ∨ q > 15))) := by
  constructor
  · unfold resolve_turn
    dsimp only
    apply resolve_with_valid_congr
    · exact (validate_movement_congr E _ oa
        { oa with torpedo_orders := fa } rfl rfl rfl).1
    · exact (validate_movement_congr E _ oa
        { oa with torpedo_orders := fa } rfl rfl rfl).2.1
    · exact (validate_movement_congr E _ ob
        { ob with torpedo_orders := fb } rfl rfl rfl).1
    · exact (validate_movement_congr E _ ob
        { ob with torpedo_orders := fb } rfl rfl rfl).2.1
    · exact (validate_movement_congr E _ oa
        { oa with torpedo_orders := fa } rfl rfl rfl).2.2
    · exact (validate_movement_congr E _ ob
        { ob with torpedo_orders := fb } rfl rfl rfl).2.2
    · intro x
      rw [validate_torpedo_orders_eq, validate_torpedo_orders_eq]
      exact ha x
    · intro x
      rw [validate_torpedo_orders_eq, validate_torpedo_orders_eq]
      exact hb x
  · intro str p0 p1 hsplit hdet
    unfold parse_torpedo_action
    rw [hsplit]
    dsimp only
    rw [if_pos hdet]
    cases hq : parseDecQ (String.mk p1) with
    | none => simp [isErr]
    | some q =>
      dsimp only
      split_ifs with hr
      · simp [isErr, hr]
      · simp [isErr, hr]

theorem malformed_torpedo_command_ignored_witness :
    resolve_turn E0 s_pending o99 oSTOP =
      resolve_turn E0 s_pending { o99 with torpedo_orders := fun _ => none }
        { oSTOP with torpedo_orders := fun _ => none } ∧
      ∀ str p0 p1, splitOnce ':' str.data = some (p0, p1) →
        pyLower (String.mk p0) = "detonate_after" →
        (isErr (parse_torpedo_action str) = true ↔
          (parseDecQ (String.mk p1) = none ∨
            ∃ q, parseDecQ (String.mk p1) = some q ∧ (q < 0 ∨ q > 15))) := by
  apply malformed_torpedo_command_ignored
  · intro x
    by_cases hx : x = "t_timer"
    · right
      refine ⟨rfl, cmd99, ?_, ?_⟩
      · simp [o99, hx]
      · show isErr (parse_torpedo_action cmd99) = true
        have hsp : splitOnce ':' cmd99.data =
            some ("detonate_after".data, "99".data) := rfl
        have hlo : pyLower (String.mk "detonate_after".data) =
            "detonate_after" := rfl
        have hq : parseDecQ (String.mk "99".data) =
            some (1 * ((99 : ℕ) : ℚ)) := rfl
        have hc : (1 * ((99 : ℕ) : ℚ) < 0 ∨ 1 * ((99 : ℕ) : ℚ) > 15) := by
          right
          norm_num
        unfold parse_torpedo_action
        rw [hsp]
        dsimp only
        rw [if_pos hlo, hq]
        dsimp only
        rw [if_pos hc]
        rfl
    · left
      simp [o99, hx]
  · intro x
    left
    rfl

end AiArena
